import Mathlib

/-!
Verification of the haxball-solo simulation core (src/game: Utils.ts, Entities.ts,
Physics.ts, World.ts, Bot.ts) against its natural-language specification.

The TypeScript source computes with IEEE doubles; this development embeds the
numeric state over the real numbers. JavaScript's non-finite values (NaN,
Infinity) have no counterpart in this exact model, so the source's
`isFinite(...)` guards are identically true here and are noted in comments at
the points where they occur in the source. The embedding is otherwise a direct
transcription: each definition mirrors the source function of the same name.
-/

namespace HaxballSolo

noncomputable section

open Classical

/-! ### Utils.ts — 2D vector math -/

@[ext]
structure Vec2 where
  x : ℝ
  y : ℝ

def vec2Zero : Vec2 := ⟨0, 0⟩

def vec2Add (a b : Vec2) : Vec2 := ⟨a.x + b.x, a.y + b.y⟩

def vec2Sub (a b : Vec2) : Vec2 := ⟨a.x - b.x, a.y - b.y⟩

def vec2Scale (v : Vec2) (s : ℝ) : Vec2 := ⟨v.x * s, v.y * s⟩

def vec2Length (v : Vec2) : ℝ := Real.sqrt (v.x * v.x + v.y * v.y)

def vec2LengthSq (v : Vec2) : ℝ := v.x * v.x + v.y * v.y

/-- `vec2Normalize`: returns the zero vector when the input length is below
the 1e-4 degeneracy threshold, else rescales to unit length. -/
def vec2Normalize (v : Vec2) : Vec2 :=
  let len := vec2Length v
  if len < 0.0001 then vec2Zero else vec2Scale v (1 / len)

def vec2Dot (a b : Vec2) : ℝ := a.x * b.x + a.y * b.y

def vec2Distance (a b : Vec2) : ℝ := vec2Length (vec2Sub a b)

@[simp] lemma vec2_mk_x (a b : ℝ) : (Vec2.mk a b).x = a := rfl

@[simp] lemma vec2_mk_y (a b : ℝ) : (Vec2.mk a b).y = b := rfl

/-- JavaScript's `Math.atan2(y, x)` on the reals (with `atan2(0, 0) = 0`). -/
def jsAtan2 (y x : ℝ) : ℝ :=
  if 0 < x then Real.arctan (y / x)
  else if x < 0 then
    (if 0 ≤ y then Real.arctan (y / x) + Real.pi else Real.arctan (y / x) - Real.pi)
  else if 0 < y then Real.pi / 2
  else if y < 0 then -(Real.pi / 2)
  else 0

/-! ### Entities.ts — constants, Entity, Player, Ball -/

def PLAYER_RADIUS : ℝ := 18
def PLAYER_MASS : ℝ := 2.2
def PLAYER_RESTITUTION : ℝ := 0.35
def PLAYER_MAX_SPEED : ℝ := 180
def PLAYER_ACCELERATION : ℝ := 500
def PLAYER_DAMPING : ℝ := 0.991
def KICK_RADIUS : ℝ := 35
def KICK_FORCE : ℝ := 320
def BALL_RADIUS : ℝ := 10
def BALL_MASS : ℝ := 0.9
def BALL_RESTITUTION : ℝ := 0.88
def BALL_MAX_SPEED : ℝ := 350
def BALL_DAMPING : ℝ := 0.992
def ARENA_WIDTH : ℝ := 900
def ARENA_HEIGHT : ℝ := 540
def GOAL_HEIGHT : ℝ := 160
def WALL_THICKNESS : ℝ := 20
def COLLISION_SLOP : ℝ := 0.1
def POSITION_CORRECTION_PERCENT : ℝ := 0.8

inductive EntityType where
  | player
  | ball
deriving DecidableEq

structure Entity where
  type : EntityType
  position : Vec2
  velocity : Vec2
  radius : ℝ
  mass : ℝ
  restitution : ℝ
  maxSpeed : ℝ
  damping : ℝ

/-- `get invMass()`: reciprocal mass, 0 for non-positive mass. -/
def Entity.invMass (e : Entity) : ℝ := if 0 < e.mass then 1 / e.mass else 0

/-- `Entity.update(dt)`: damping, speed clamp by uniform rescale, then
semi-implicit Euler position integration. -/
def Entity.update (e : Entity) (dt : ℝ) : Entity :=
  let v1 : Vec2 := ⟨e.velocity.x * e.damping, e.velocity.y * e.damping⟩
  let speed := Real.sqrt (v1.x * v1.x + v1.y * v1.y)
  let v2 : Vec2 :=
    if e.maxSpeed < speed then ⟨v1.x * (e.maxSpeed / speed), v1.y * (e.maxSpeed / speed)⟩
    else v1
  { e with velocity := v2,
           position := ⟨e.position.x + v2.x * dt, e.position.y + v2.y * dt⟩ }

/-- `Entity.applyImpulse(impulse)`: velocity += impulse * invMass. -/
def Entity.applyImpulse (e : Entity) (impulse : Vec2) : Entity :=
  { e with velocity := ⟨e.velocity.x + impulse.x * e.invMass,
                        e.velocity.y + impulse.y * e.invMass⟩ }

structure Player extends Entity where
  isHuman : Bool
  inputAcceleration : Vec2

/-- The `new Player(position, isHuman)` constructor. -/
def mkPlayer (position : Vec2) (isHuman : Bool) : Player :=
  { type := EntityType.player
    position := position
    velocity := vec2Zero
    radius := PLAYER_RADIUS
    mass := PLAYER_MASS
    restitution := PLAYER_RESTITUTION
    maxSpeed := PLAYER_MAX_SPEED
    damping := PLAYER_DAMPING
    isHuman := isHuman
    inputAcceleration := vec2Zero }

/-- `Player.update(dt, accelerationMultiplier)`: add input acceleration to
velocity, then the base Entity.update. -/
def Player.update (p : Player) (dt accelerationMultiplier : ℝ) : Player :=
  let accel := PLAYER_ACCELERATION * accelerationMultiplier
  let v : Vec2 := ⟨p.velocity.x + p.inputAcceleration.x * accel * dt,
                   p.velocity.y + p.inputAcceleration.y * accel * dt⟩
  { p with toEntity := Entity.update { p.toEntity with velocity := v } dt }

structure Ball extends Entity where
  isFrozen : Bool
  freezeTime : ℝ

/-- The `new Ball(position)` constructor. -/
def mkBall (position : Vec2) : Ball :=
  { type := EntityType.ball
    position := position
    velocity := vec2Zero
    radius := BALL_RADIUS
    mass := BALL_MASS
    restitution := BALL_RESTITUTION
    maxSpeed := BALL_MAX_SPEED
    damping := BALL_DAMPING
    isFrozen := false
    freezeTime := 0 }

/-- `Ball.update(dt)`: while frozen, run down the freeze timer and skip
motion; on expiry within the tick, clear the flag and fall through to the
base update. -/
def Ball.update (b : Ball) (dt : ℝ) : Ball :=
  if b.isFrozen then
    let ft := b.freezeTime - dt
    if ft ≤ 0 then
      { { b with isFrozen := false, freezeTime := ft }
        with toEntity := Entity.update { b.toEntity with } dt }
    else
      { b with freezeTime := ft }
  else
    { b with toEntity := Entity.update b.toEntity dt }

/-- `Ball.freeze(duration)`: arm the freeze timer and zero the velocity. -/
def Ball.freeze (b : Ball) (duration : ℝ) : Ball :=
  { b with isFrozen := true, freezeTime := duration, velocity := vec2Zero }

/-! ### Physics.ts — collision detection/resolution and goal detection -/

structure Collision where
  entityA : Entity
  entityB : Entity
  normal : Vec2
  penetration : ℝ

structure WallCollision where
  entity : Entity
  normal : Vec2
  penetration : ℝ

/-- `detectCircleCollision(a, b)`: squared-distance overlap test; normal
points from A to B, defaulting to (1, 0) when the centers are within the
1e-4 degeneracy threshold; penetration = sum of radii − center distance. -/
def detectCircleCollision (a b : Entity) : Option Collision :=
  let dx := b.position.x - a.position.x
  let dy := b.position.y - a.position.y
  let distSq := dx * dx + dy * dy
  let minDist := a.radius + b.radius
  if minDist * minDist ≤ distSq then none
  else
    let dist := Real.sqrt distSq
    let penetration := minDist - dist
    let normal := if 0.0001 < dist then vec2Normalize ⟨dx, dy⟩ else (⟨1, 0⟩ : Vec2)
    some ⟨a, b, normal, penetration⟩

/-- The positional-correction phase of `resolveCircleCollision`: above the
slop threshold, displace each entity along the normal proportionally to its
share of the combined inverse mass, scaled by the correction fraction. -/
def resolveCircleCorrection (collision : Collision) : Entity × Entity :=
  let a := collision.entityA
  let b := collision.entityB
  let n := collision.normal
  let penetration := collision.penetration
  if COLLISION_SLOP < penetration then
    let correction := POSITION_CORRECTION_PERCENT * penetration
    let totalInvMass := a.invMass + b.invMass
    if 0 < totalInvMass then
      let correctionA := correction * (a.invMass / totalInvMass)
      let correctionB := correction * (b.invMass / totalInvMass)
      ({ a with position := ⟨a.position.x - n.x * correctionA,
                            a.position.y - n.y * correctionA⟩ },
       { b with position := ⟨b.position.x + n.x * correctionB,
                            b.position.y + n.y * correctionB⟩ })
    else (a, b)
  else (a, b)

/-- `resolveCircleCollision(collision, dt)`: positional correction above the
slop threshold, then an impulse along the normal unless the pair is
separating or immovable. Returns the updated (entityA, entityB). The `dt`
parameter is unused, as in the source. -/
def resolveCircleCollision (collision : Collision) (dt : ℝ) : Entity × Entity :=
  let n := collision.normal
  let ab := resolveCircleCorrection collision
  let a1 := ab.1
  let b1 := ab.2
  let relativeVel := vec2Sub b1.velocity a1.velocity
  let velAlongNormal := vec2Dot relativeVel n
  if 0 < velAlongNormal then (a1, b1)
  else
    let e := min a1.restitution b1.restitution
    let invMassSum := a1.invMass + b1.invMass
    if invMassSum = 0 then (a1, b1)
    else
      let impulseScalar := -(1 + e) * velAlongNormal / invMassSum
      let impulse := vec2Scale n impulseScalar
      (a1.applyImpulse (vec2Scale impulse (-1)), b1.applyImpulse impulse)

def goalTop : ℝ := ARENA_HEIGHT / 2 - GOAL_HEIGHT / 2

def goalBottom : ℝ := ARENA_HEIGHT / 2 + GOAL_HEIGHT / 2

/-- `detectWallCollision(entity)`: at most one wall normal per entity per
tick, the left/right checks evaluated before top/bottom so a later check
overwrites an earlier one on corner overlap. Players always collide with the
left/right borders; the Ball passes through the goal-mouth span. -/
def detectWallCollision (entity : Entity) : Option WallCollision :=
  let acc : Option Vec2 × ℝ := (none, 0)
  -- Left wall (with goal opening)
  let acc :=
    if entity.position.x - entity.radius < WALL_THICKNESS ∧
       (entity.type = EntityType.player ∨
        entity.position.y < goalTop ∨ goalBottom < entity.position.y) then
      ((some (⟨1, 0⟩ : Vec2) : Option Vec2),
       WALL_THICKNESS - (entity.position.x - entity.radius))
    else acc
  -- Right wall (with goal opening)
  let acc :=
    if ARENA_WIDTH - WALL_THICKNESS < entity.position.x + entity.radius ∧
       (entity.type = EntityType.player ∨
        entity.position.y < goalTop ∨ goalBottom < entity.position.y) then
      ((some (⟨-1, 0⟩ : Vec2) : Option Vec2),
       (entity.position.x + entity.radius) - (ARENA_WIDTH - WALL_THICKNESS))
    else acc
  -- Top wall
  let acc :=
    if entity.position.y - entity.radius < WALL_THICKNESS then
      ((some (⟨0, 1⟩ : Vec2) : Option Vec2),
       WALL_THICKNESS - (entity.position.y - entity.radius))
    else acc
  -- Bottom wall
  let acc :=
    if ARENA_HEIGHT - WALL_THICKNESS < entity.position.y + entity.radius then
      ((some (⟨0, -1⟩ : Vec2) : Option Vec2),
       (entity.position.y + entity.radius) - (ARENA_HEIGHT - WALL_THICKNESS))
    else acc
  match acc with
  | (some normal, penetration) =>
      if 0 < penetration then some ⟨entity, normal, penetration⟩ else none
  | (none, _) => none

/-- `resolveWallCollision(collision, dt)`: full positional correction above
the slop threshold and velocity reflection about the wall normal when moving
into the wall. -/
def resolveWallCollision (collision : WallCollision) (dt : ℝ) : Entity :=
  let entity := collision.entity
  let n := collision.normal
  let penetration := collision.penetration
  let entity1 :=
    if COLLISION_SLOP < penetration then
      let correction := POSITION_CORRECTION_PERCENT * penetration
      { entity with position := ⟨entity.position.x + n.x * correction,
                                 entity.position.y + n.y * correction⟩ }
    else entity
  let velAlongNormal := vec2Dot entity1.velocity n
  if velAlongNormal < 0 then
    let reflectedVel := vec2Scale n (-2 * velAlongNormal * entity1.restitution)
    { entity1 with velocity := ⟨entity1.velocity.x + reflectedVel.x,
                                entity1.velocity.y + reflectedVel.y⟩ }
  else entity1

inductive GoalSide where
  | left
  | right
deriving DecidableEq

/-- `checkGoal(ball)`: a ball overlapping past a goal line (x − radius < 0
on the left, x + radius > arena width on the right) while its center is
vertically within the goal-mouth span credits the opposite side. -/
def checkGoal (ball : Ball) : Option GoalSide :=
  if ball.position.x - ball.radius < 0 ∧
     goalTop ≤ ball.position.y ∧ ball.position.y ≤ goalBottom then
    some GoalSide.right
  else if ARENA_WIDTH < ball.position.x + ball.radius ∧
     goalTop ≤ ball.position.y ∧ ball.position.y ≤ goalBottom then
    some GoalSide.left
  else none

/-! ### World.ts — game world, tick orchestration, match state -/

inductive GameMode where
  | OneVsOne
  | TwoVsTwo
  | ThreeVsThree
deriving DecidableEq

structure World where
  humanTeam : List Player
  botTeam : List Player
  ball : Ball
  scoreHuman : ℕ
  scoreBot : ℕ
  kickoffFreezeTime : ℝ
  isPaused : Bool
  gameMode : GameMode

/-- Players per side in each mode. -/
def teamSize : GameMode → ℕ
  | GameMode.OneVsOne => 1
  | GameMode.TwoVsTwo => 2
  | GameMode.ThreeVsThree => 3

/-- The `new World(gameMode)` constructor. `humanPlayer` is the head of
`humanTeam` (pushed first and never reassigned in the source). -/
def mkWorld (gameMode : GameMode) : World :=
  let centerX := ARENA_WIDTH / 2
  let centerY := ARENA_HEIGHT / 2
  let humanPlayer := mkPlayer ⟨250, centerY⟩ true
  let humanTeam :=
    match gameMode with
    | GameMode.OneVsOne => [humanPlayer]
    | GameMode.TwoVsTwo => [humanPlayer, mkPlayer ⟨300, centerY - 80⟩ true]
    | GameMode.ThreeVsThree =>
        [humanPlayer, mkPlayer ⟨300, centerY - 100⟩ true, mkPlayer ⟨300, centerY + 100⟩ true]
  let botTeam :=
    match gameMode with
    | GameMode.OneVsOne => [mkPlayer ⟨650, centerY⟩ false]
    | GameMode.TwoVsTwo => [mkPlayer ⟨650, centerY⟩ false, mkPlayer ⟨600, centerY - 80⟩ false]
    | GameMode.ThreeVsThree =>
        [mkPlayer ⟨650, centerY⟩ false, mkPlayer ⟨600, centerY - 100⟩ false,
         mkPlayer ⟨600, centerY + 100⟩ false]
  { humanTeam := humanTeam
    botTeam := botTeam
    ball := mkBall ⟨centerX, centerY⟩
    scoreHuman := 0
    scoreBot := 0
    kickoffFreezeTime := 0
    isPaused := false
    gameMode := gameMode }

def World.getAllPlayers (w : World) : List Player := w.humanTeam ++ w.botTeam

/-- First half of `World.update`: run down the kickoff freeze timer,
unfreezing the ball once it elapses. -/
def World.advanceKickoffTimer (w : World) (dt : ℝ) : World :=
  if 0 < w.kickoffFreezeTime then
    let k := w.kickoffFreezeTime - dt
    { w with kickoffFreezeTime := k,
             ball := if k ≤ 0 ∧ w.ball.isFrozen then { w.ball with isFrozen := false }
                     else w.ball }
  else w

/-- Second half of `World.update`'s integration: every human-roster player
updates at multiplier 1.0 (the `humanPlayer` alias is `humanTeam[0]`), every
bot-roster player at the supplied multiplier, then the ball. -/
def World.integrateEntities (w : World) (dt botAccelerationMultiplier : ℝ) : World :=
  { w with humanTeam := w.humanTeam.map (fun p => p.update dt 1.0),
           botTeam := w.botTeam.map (fun p => p.update dt botAccelerationMultiplier),
           ball := w.ball.update dt }

/-- Overwrite roster slot `i`'s position and zero its velocity, guarded on
the slot existing (the source's `length > i` checks). -/
def resetSlot (l : List Player) (i : ℕ) (pos : Vec2) : List Player :=
  match l.get? i with
  | some p => l.set i { p with position := pos, velocity := vec2Zero }
  | none => l

/-- `World.resetKickoff()`: reapply the mode's fixed kickoff coordinates to
every roster slot and the ball, freeze the ball for 1 second and arm the
kickoff timer. -/
def World.resetKickoff (w : World) : World :=
  let centerX := ARENA_WIDTH / 2
  let centerY := ARENA_HEIGHT / 2
  -- Reset human player (humanTeam[0]), then the mode's extra human slots
  let ht := resetSlot w.humanTeam 0 ⟨250, centerY⟩
  let ht :=
    match w.gameMode with
    | GameMode.OneVsOne => ht
    | GameMode.TwoVsTwo => resetSlot ht 1 ⟨300, centerY - 80⟩
    | GameMode.ThreeVsThree =>
        resetSlot (resetSlot ht 1 ⟨300, centerY - 100⟩) 2 ⟨300, centerY + 100⟩
  -- Reset bot team
  let bt :=
    match w.gameMode with
    | GameMode.OneVsOne => resetSlot w.botTeam 0 ⟨650, centerY⟩
    | GameMode.TwoVsTwo => resetSlot (resetSlot w.botTeam 0 ⟨650, centerY⟩) 1 ⟨600, centerY - 80⟩
    | GameMode.ThreeVsThree =>
        resetSlot (resetSlot (resetSlot w.botTeam 0 ⟨650, centerY⟩) 1 ⟨600, centerY - 100⟩)
          2 ⟨600, centerY + 100⟩
  { w with humanTeam := ht,
           botTeam := bt,
           ball := (({ w.ball with position := ⟨centerX, centerY⟩,
                                   velocity := vec2Zero } : Ball).freeze 1),
           kickoffFreezeTime := 1 }

/-- `World.reset()`: zero both score counters and reapply the kickoff. -/
def World.reset (w : World) : World :=
  World.resetKickoff { w with scoreHuman := 0, scoreBot := 0 }

/-- One sequential pair step of the O(n²) collision pass: detect and resolve
entities `i` and `j` of the working list, writing the updated pair back. -/
def resolvePairStep (es : List Entity) (ij : ℕ × ℕ) (dt : ℝ) : List Entity :=
  match es.get? ij.1, es.get? ij.2 with
  | some a, some b =>
      match detectCircleCollision a b with
      | some collision =>
          let ab := resolveCircleCollision collision dt
          (es.set ij.1 ab.1).set ij.2 ab.2
      | none => es
  | _, _ => es

/-- The loop order of the source's nested `for` loops: (i, j) for i < j. -/
def pairIndices (n : ℕ) : List (ℕ × ℕ) :=
  (List.range n).flatMap fun i => ((List.range (n - i - 1)).map fun k => (i, i + 1 + k))

/-- `World.resolveCollisions(dt)`: pairwise circle resolution over
players ++ ball in loop order, then one wall pass over every entity, the
results written back into the rosters and the ball. -/
def World.resolveCollisions (w : World) (dt : ℝ) : World :=
  let allPlayers := w.getAllPlayers
  let entities : List Entity := allPlayers.map Player.toEntity ++ [w.ball.toEntity]
  let es1 := (pairIndices entities.length).foldl (fun es ij => resolvePairStep es ij dt) entities
  let es2 := es1.map fun e =>
    match detectWallCollision e with
    | some wallCollision => resolveWallCollision wallCollision dt
    | none => e
  let nh := w.humanTeam.length
  let nb := w.botTeam.length
  { w with
      humanTeam := (w.humanTeam.zip (es2.take nh)).map fun pe => { pe.1 with toEntity := pe.2 },
      botTeam := (w.botTeam.zip ((es2.drop nh).take nb)).map fun pe =>
        { pe.1 with toEntity := pe.2 },
      ball := match (es2.drop (nh + nb)).head? with
              | some e => { w.ball with toEntity := e }
              | none => w.ball }

/-- `World.update(dt, botAccelerationMultiplier)`: no-op while paused;
otherwise advance the kickoff timer, integrate every entity, check for a
goal — on a goal bump the scoring side's counter, reset the kickoff layout
and return the side, with no collision pass that tick; otherwise run the
collision pass and return no goal. -/
def World.update (w : World) (dt botAccelerationMultiplier : ℝ) : World × Option GoalSide :=
  if w.isPaused then (w, none)
  else
    let w2 := (w.advanceKickoffTimer dt).integrateEntities dt botAccelerationMultiplier
    match checkGoal w2.ball with
    | some goal =>
        let w3 :=
          if goal = GoalSide.left then { w2 with scoreHuman := w2.scoreHuman + 1 }
          else { w2 with scoreBot := w2.scoreBot + 1 }
        (w3.resetKickoff, some goal)
    | none => (w2.resolveCollisions dt, none)

/-- `World.tryKick(player)`: guards (ball frozen, out of kick range; the
source's `isFinite` checks are identically true here), then sets the ball
velocity to kick force along the input direction, else the velocity
direction, else straight at the opposing goal. -/
def World.tryKick (w : World) (player : Player) : World × Bool :=
  let dist := vec2Distance player.position w.ball.position
  if dist ≤ KICK_RADIUS ∧ w.ball.isFrozen = false then
    let inputMag := Real.sqrt (player.inputAcceleration.x * player.inputAcceleration.x +
      player.inputAcceleration.y * player.inputAcceleration.y)
    let velocityMag := Real.sqrt (player.velocity.x * player.velocity.x +
      player.velocity.y * player.velocity.y)
    let direction : Vec2 :=
      if 0.001 < inputMag then vec2Normalize player.inputAcceleration
      else if 1 < velocityMag then vec2Normalize player.velocity
      else vec2Normalize ⟨if player.isHuman then 1 else -1, 0⟩
    let dirMag := vec2Length direction
    if 0.1 < dirMag then
      ({ w with ball := { w.ball with velocity := ⟨direction.x * KICK_FORCE,
                                                   direction.y * KICK_FORCE⟩ } }, true)
    else (w, false)
  else (w, false)

/-- The scan's per-teammate score: distance, a heavy +1000 behind-the-passer
penalty, and an "ahead" bonus from the dot of the ball-to-teammate direction
against the pass direction. -/
def tryPassScanScore (w : World) (player teammate : Player) : ℝ :=
  let dist := vec2Distance player.position teammate.position
  let passAngle := jsAtan2 (teammate.position.y - player.position.y)
    (teammate.position.x - player.position.x)
  let ballToTeammate := vec2Sub teammate.position w.ball.position
  let ballToTeammateNorm := vec2Normalize ballToTeammate
  let passDirNorm := vec2Normalize ⟨Real.cos passAngle, Real.sin passAngle⟩
  let teammateAhead := vec2Dot ballToTeammateNorm passDirNorm
  dist + (if teammateAhead < 0 then (1000 : ℝ) else 0) - teammateAhead * 50

/-- One step of `tryPass`'s best-teammate scan; the accumulator plays the
role of the source's (bestTeammate, bestScore)-with-Infinity pair. -/
def tryPassScanStep (w : World) (player : Player) (acc : Option (Player × ℝ))
    (teammate : Player) : Option (Player × ℝ) :=
  let dist := vec2Distance player.position teammate.position
  if dist < 0.1 ∨ 500 < dist then acc
  else
    let score := tryPassScanScore w player teammate
    if dist < 400 ∧ 30 < dist ∧ (match acc with
        | none => True
        | some best => score < best.2) then
      some (teammate, score)
    else acc

/-- The human-priority branch of `tryPass`: when a human-rostered passer has
the distinct primary human player open (distance 30–500) and ahead or in an
advanced position, pass toward a lead-biased clamped target at 92% force. -/
def tryPassHumanBranch (w : World) (player : Player) : Option (World × Player) :=
  match w.humanTeam.head? with
  | none => none
  | some humanPlayer =>
    if player ∈ w.humanTeam ∧ ¬(humanPlayer = player) then
      let distToHuman := vec2Distance player.position humanPlayer.position
      let humanAhead := player.position.x < humanPlayer.position.x
      let humanInGoodPosition := ARENA_WIDTH / 2 - 100 < humanPlayer.position.x
      if (30 < distToHuman ∧ distToHuman < 500) ∧
         (humanAhead ∨ humanInGoodPosition) then
        let humanSpeed := vec2Length humanPlayer.velocity
        let passLead := min (humanSpeed * 0.45) 85
        let humanDirection :=
          if 5 < humanSpeed then vec2Normalize humanPlayer.velocity
          else vec2Normalize (vec2Sub humanPlayer.position player.position)
        let passTarget : Vec2 :=
          ⟨max 0 (min ARENA_WIDTH (humanPlayer.position.x + humanDirection.x * passLead)),
           max 80 (min (ARENA_HEIGHT - 80)
             (humanPlayer.position.y + humanDirection.y * passLead))⟩
        let passDirection := vec2Normalize (vec2Sub passTarget w.ball.position)
        let passForce := KICK_FORCE * 0.92
        some ({ w with ball := { w.ball with
          velocity := ⟨passDirection.x * passForce, passDirection.y * passForce⟩ } },
          humanPlayer)
      else none
    else none

/-- The scan branch's pass execution: lead-biased clamped target toward the
selected teammate, ball velocity set at 90% of kick force. -/
def tryPassExecute (w : World) (player bestTeammate : Player) : World :=
  let targetSpeed := vec2Length bestTeammate.velocity
  let passLead := min (targetSpeed * 0.35) 70
  let targetDirection :=
    if 5 < targetSpeed then vec2Normalize bestTeammate.velocity
    else vec2Normalize (vec2Sub bestTeammate.position player.position)
  let passTarget : Vec2 :=
    ⟨max 0 (min ARENA_WIDTH (bestTeammate.position.x + targetDirection.x * passLead)),
     max 80 (min (ARENA_HEIGHT - 80)
       (bestTeammate.position.y + targetDirection.y * passLead))⟩
  let passDirection := vec2Normalize (vec2Sub passTarget w.ball.position)
  let passForce := KICK_FORCE * 0.9
  { w with ball := { w.ball with
      velocity := ⟨passDirection.x * passForce, passDirection.y * passForce⟩ } }

/-- `World.tryPass(player)`: guards, roster identification by membership,
the heavily prioritized pass to the primary human player, else the scored
scan of remaining same-roster teammates. Returns the world and the chosen
receiver. -/
def World.tryPass (w : World) (player : Player) : World × Option Player :=
  let distToBall := vec2Distance player.position w.ball.position
  if KICK_RADIUS < distToBall ∨ w.ball.isFrozen = true then (w, none)
  else
    let teammates :=
      if player ∈ w.humanTeam then w.humanTeam.filter (fun p => decide ¬(p = player))
      else w.botTeam.filter (fun p => decide ¬(p = player))
    if teammates.isEmpty then (w, none)
    else
      match tryPassHumanBranch w player with
      | some wh => (wh.1, some wh.2)
      | none =>
        match teammates.foldl (tryPassScanStep w player) none with
        | none => (w, none)
        | some best => (tryPassExecute w player best.1, some best.1)

/-! ### Bot.ts — per-tick decision engine

`getDesiredDirection` reads no Bot instance state (`ballHistory` is only
written by `updateBallPosition`), so it is embedded as a pure function. The
single `Math.random()` draw (the 1v1 in-possession goal jitter) is passed in
as the parameter `rand`. -/

/-- JavaScript's `Array.indexOf` (−1 when absent), as used by the Bot's
role-by-roster-index logic. -/
def jsIndexOf (l : List Player) (p : Player) : ℝ :=
  match l with
  | [] => -1
  | q :: rest =>
      if q = p then 0
      else
        let r := jsIndexOf rest p
        if r = -1 then -1 else r + 1

/-- `calculateSeparation(bot, humanTeam, botTeam, isTeammate)`: normalized
sum of distance-weighted unit away-vectors from every other player within
100px (same-roster neighbors weighted 1.5×), or the zero vector. -/
def calculateSeparation (bot : Player) (humanTeam botTeam : List Player)
    (isTeammate : Bool) : Vec2 :=
  let separationRadius : ℝ := 100
  let allPlayers := humanTeam ++ botTeam
  let acc := allPlayers.foldl (fun (acc : Vec2 × ℕ) other =>
    if other = bot then acc
    else
      let dist := vec2Distance bot.position other.position
      if dist < separationRadius ∧ 0.1 < dist then
        let away := vec2Normalize (vec2Sub bot.position other.position)
        let isSameTeam := (isTeammate = true ∧ other ∈ humanTeam) ∨
          (isTeammate = false ∧ other ∈ botTeam)
        let baseStrength := (separationRadius - dist) / separationRadius
        let strength := if isSameTeam then baseStrength * 1.5 else baseStrength
        (vec2Add acc.1 (vec2Scale away strength), acc.2 + 1)
      else acc) (vec2Zero, 0)
  if 0 < acc.2 ∧ (acc.1.x ≠ 0 ∨ acc.1.y ≠ 0) then vec2Normalize acc.1
  else vec2Zero

/-- `get3v3TeammatePosition(...)`: winger/playmaker target selection for
3v3 teammates, keyed on roster index and possession. -/
def get3v3TeammatePosition (bot : Player) (ball : Ball) (humanPlayer : Player)
    (humanTeam : List Player) (ballOnBotSide : Prop) (centerX centerY : ℝ)
    (humanGoalCenter : Vec2) (botHasBallControl : Prop) : Vec2 :=
  let teammateIndex := jsIndexOf humanTeam bot
  let isLeftWinger := teammateIndex = 1
  let isRightWinger := teammateIndex = 2
  let topWingerY := centerY - 120
  let bottomWingerY := centerY + 120
  if botHasBallControl then
    -- HAS BALL: pass to the human player by priority tiers
    let distToHuman := vec2Distance bot.position humanPlayer.position
    let humanAhead := bot.position.x < humanPlayer.position.x
    let humanInGoodPosition := centerX - 100 < humanPlayer.position.x
    if humanAhead ∧ humanInGoodPosition ∧ distToHuman < 450 ∧ 40 < distToHuman then
      let humanSpeed := vec2Length humanPlayer.velocity
      let passLead := min (humanSpeed * 0.5) 90
      let humanDirection :=
        if 5 < humanSpeed then vec2Normalize humanPlayer.velocity
        else vec2Normalize (vec2Sub humanGoalCenter humanPlayer.position)
      ⟨max 0 (min ARENA_WIDTH (humanPlayer.position.x + humanDirection.x * passLead)),
       max 80 (min (ARENA_HEIGHT - 80) (humanPlayer.position.y + humanDirection.y * passLead))⟩
    else if distToHuman < 400 ∧ 40 < distToHuman ∧ humanInGoodPosition then
      let humanSpeed := vec2Length humanPlayer.velocity
      let passLead := min (humanSpeed * 0.4) 70
      let humanDirection :=
        if 5 < humanSpeed then vec2Normalize humanPlayer.velocity
        else vec2Normalize (vec2Sub humanGoalCenter humanPlayer.position)
      ⟨max 0 (min ARENA_WIDTH (humanPlayer.position.x + humanDirection.x * passLead)),
       max 80 (min (ARENA_HEIGHT - 80) (humanPlayer.position.y + humanDirection.y * passLead))⟩
    else if ¬humanAhead ∧ distToHuman < 200 then
      ⟨min (bot.position.x + 100) (humanGoalCenter.x - 60), bot.position.y⟩
    else if distToHuman < 50 then
      if isLeftWinger then ⟨bot.position.x, max 80 (bot.position.y - 80)⟩
      else ⟨bot.position.x, min (ARENA_HEIGHT - 80) (bot.position.y + 80)⟩
    else ⟨humanGoalCenter.x - 100, bot.position.y⟩
  else
    -- WITHOUT BALL: winger positioning
    let humanHasBall := vec2Distance humanPlayer.position ball.position < 40
    if ballOnBotSide then
      if isLeftWinger then
        if humanHasBall then
          if centerX + 50 < humanPlayer.position.x then
            ⟨min (humanPlayer.position.x + 80) (humanGoalCenter.x - 40),
             max 80 (min (ARENA_HEIGHT - 80) (centerY - 60))⟩
          else
            ⟨max (ball.position.x - 40) (centerX - 30),
             max 80 (min (ARENA_HEIGHT - 80) topWingerY)⟩
        else
          ⟨max (ball.position.x - 80) (centerX - 60),
           max 80 (min (ARENA_HEIGHT - 80) topWingerY)⟩
      else if isRightWinger then
        if humanHasBall then
          if centerX + 50 < humanPlayer.position.x then
            ⟨min (humanPlayer.position.x + 80) (humanGoalCenter.x - 40),
             max 80 (min (ARENA_HEIGHT - 80) (centerY + 60))⟩
          else
            ⟨max (ball.position.x - 40) (centerX - 30),
             max 80 (min (ARENA_HEIGHT - 80) bottomWingerY)⟩
        else
          ⟨max (ball.position.x - 80) (centerX - 60),
           max 80 (min (ARENA_HEIGHT - 80) bottomWingerY)⟩
      else ⟨bot.position.x, bot.position.y⟩
    else
      if isLeftWinger then
        ⟨max (centerX + 100) (ball.position.x - 120),
         max 80 (min (ARENA_HEIGHT - 80) topWingerY)⟩
      else if isRightWinger then
        ⟨max (centerX + 100) (ball.position.x - 120),
         max 80 (min (ARENA_HEIGHT - 80) bottomWingerY)⟩
      else ⟨bot.position.x, bot.position.y⟩

/-- One step of `getOpponentCoordinatedPosition`'s best-teammate scan. -/
def opponentScanStep (bot : Player) (centerX : ℝ) (acc : Option (Player × ℝ))
    (teammate : Player) : Option (Player × ℝ) :=
  let dist := vec2Distance bot.position teammate.position
  let teammateAhead := bot.position.x < teammate.position.x
  let teammateInGoodPosition := centerX - 80 < teammate.position.x
  let teammateOpen := 50 < dist ∧ dist < 350
  let score := dist + (if teammateAhead then (-80 : ℝ) else 100) +
    (if teammateInGoodPosition then (-50 : ℝ) else 50) +
    (if teammateOpen then (-30 : ℝ) else 50)
  if dist < 400 ∧ 40 < dist ∧ (match acc with
      | none => True
      | some best => score < best.2) then
    some (teammate, score)
  else acc

/-- `getOpponentCoordinatedPosition(...)`: coordinated 2v2/3v3 opponent
targets — in possession, a lead pass toward the best-scored teammate, else
role-by-index offensive/defensive positioning. -/
def getOpponentCoordinatedPosition (bot : Player) (ball : Ball) (botTeam : List Player)
    (ballOnBotSide : Prop) (centerX centerY : ℝ) (humanGoalCenter : Vec2)
    (botHasBallControl : Prop) (predictedBallPos : Vec2) (gameMode : Option GameMode) :
    Vec2 :=
  let botIndex := jsIndexOf botTeam bot
  let is2v2 := gameMode = some GameMode.TwoVsTwo
  let is3v3 := gameMode = some GameMode.ThreeVsThree
  if botHasBallControl then
    let teammates := botTeam.filter (fun p => decide ¬(p = bot))
    let best := if teammates.isEmpty then none
      else teammates.foldl (opponentScanStep bot centerX) none
    match best with
    | some b =>
        let bestTeammate := b.1
        let teammateSpeed := vec2Length bestTeammate.velocity
        let passLead := min (teammateSpeed * 0.3) 60
        let teammateDir :=
          if 5 < teammateSpeed then vec2Normalize bestTeammate.velocity
          else vec2Normalize (vec2Sub humanGoalCenter bestTeammate.position)
        ⟨max 0 (min ARENA_WIDTH (bestTeammate.position.x + teammateDir.x * passLead)),
         max 80 (min (ARENA_HEIGHT - 80) (bestTeammate.position.y + teammateDir.y * passLead))⟩
    | none => ⟨humanGoalCenter.x, humanGoalCenter.y⟩
  else
    if ballOnBotSide then
      if is2v2 then
        if botIndex = 0 then
          if vec2Distance bot.position ball.position < 250 then predictedBallPos
          else ⟨ball.position.x - 80, centerY⟩
        else
          let supportX := max (ball.position.x - 100) (centerX - 40)
          let supportY := if botIndex = 1 then centerY - 100 else centerY + 100
          ⟨supportX, max 80 (min (ARENA_HEIGHT - 80) supportY)⟩
      else if is3v3 then
        if botIndex = 0 then
          if vec2Distance bot.position ball.position < 200 then predictedBallPos
          else ⟨ball.position.x - 70, centerY⟩
        else if botIndex = 1 then
          ⟨max (ball.position.x - 90) (centerX - 50),
           max 80 (min (ARENA_HEIGHT - 80) (centerY - 110))⟩
        else if botIndex = 2 then
          ⟨max (ball.position.x - 90) (centerX - 50),
           max 80 (min (ARENA_HEIGHT - 80) (centerY + 110))⟩
        else ⟨ball.position.x, ball.position.y⟩
      else ⟨ball.position.x, ball.position.y⟩
    else
      if is2v2 then
        if botIndex = 0 then ⟨max (centerX + 100) (ball.position.x - 100), centerY⟩
        else
          let defendX := max (centerX + 80) (ball.position.x - 120)
          let defendY := if botIndex = 1 then centerY - 100 else centerY + 100
          ⟨defendX, max 80 (min (ARENA_HEIGHT - 80) defendY)⟩
      else if is3v3 then
        if botIndex = 0 then ⟨max (centerX + 110) (ball.position.x - 100), centerY⟩
        else if botIndex = 1 then
          ⟨max (centerX + 90) (ball.position.x - 130),
           max 80 (min (ARENA_HEIGHT - 80) (centerY - 100))⟩
        else if botIndex = 2 then
          ⟨max (centerX + 90) (ball.position.x - 130),
           max 80 (min (ARENA_HEIGHT - 80) (centerY + 100))⟩
        else ⟨ball.position.x, ball.position.y⟩
      else ⟨ball.position.x, ball.position.y⟩

/-- `Bot.getDesiredDirection(bot, ball, humanPlayer, humanTeam, botTeam,
isTeammate, gameMode)`: target selection by roster relationship, mode and
possession, then the separation/goal steering blend, normalized. -/
def getDesiredDirection (bot : Player) (ball : Ball) (humanPlayer : Player)
    (humanTeam botTeam : List Player) (isTeammate : Bool) (gameMode : Option GameMode)
    (rand : ℝ) : Vec2 :=
  let centerX := ARENA_WIDTH / 2
  let centerY := ARENA_HEIGHT / 2
  let botGoalCenter : Vec2 := ⟨ARENA_WIDTH, centerY⟩
  let humanGoalCenter : Vec2 := ⟨0, centerY⟩
  let ballOnBotSide := centerX < ball.position.x
  let botHasBallControl := vec2Distance bot.position ball.position < KICK_RADIUS + 20
  let ballDistToBotGoal := vec2Distance ball.position botGoalCenter
  let ballDistToHumanGoal := vec2Distance ball.position humanGoalCenter
  let separationForce := calculateSeparation bot humanTeam botTeam isTeammate
  let ballSpeed := Real.sqrt (ball.velocity.x * ball.velocity.x +
    ball.velocity.y * ball.velocity.y)
  let timeToIntercept : ℝ :=
    if 10 < ballSpeed then
      let distToBall := vec2Distance bot.position ball.position
      let denominator := ballSpeed * 0.8
      if 0.1 < denominator then max 0 (min (min (distToBall / denominator) 2.0) 2.0)
      else 0
    else 0
  let predictedBallPos : Vec2 :=
    ⟨max (-100) (min (ARENA_WIDTH + 100) (ball.position.x + ball.velocity.x * timeToIntercept)),
     max (-100) (min (ARENA_HEIGHT + 100) (ball.position.y + ball.velocity.y * timeToIntercept))⟩
  let target : Vec2 :=
    if isTeammate = true then
      if gameMode = some GameMode.ThreeVsThree then
        -- 3v3 teammate: aggressive chasing and winger logic
        let distToBall := vec2Distance bot.position ball.position
        let distToHuman := vec2Distance bot.position humanPlayer.position
        let humanHasBall := vec2Distance humanPlayer.position ball.position < 40
        if humanHasBall then
          get3v3TeammatePosition bot ball humanPlayer humanTeam ballOnBotSide centerX centerY
            humanGoalCenter False
        else if ¬botHasBallControl ∧ distToBall < 300 then
          if distToBall < distToHuman ∨ 200 < distToHuman then predictedBallPos
          else
            get3v3TeammatePosition bot ball humanPlayer humanTeam ballOnBotSide centerX centerY
              humanGoalCenter False
        else if botHasBallControl then
          get3v3TeammatePosition bot ball humanPlayer humanTeam ballOnBotSide centerX centerY
            humanGoalCenter True
        else
          get3v3TeammatePosition bot ball humanPlayer humanTeam ballOnBotSide centerX centerY
            humanGoalCenter False
      else
        -- 1v1/2v2 teammate: support the human player
        if botHasBallControl then
          let distToHuman := vec2Distance bot.position humanPlayer.position
          let humanAhead := bot.position.x < humanPlayer.position.x
          let humanInGoodPosition := centerX - 100 < humanPlayer.position.x
          if humanAhead ∧ humanInGoodPosition ∧ distToHuman < 400 ∧ 40 < distToHuman then
            let humanSpeed := vec2Length humanPlayer.velocity
            let passLead := min (humanSpeed * 0.35) 70
            let humanDirection :=
              if 5 < humanSpeed then vec2Normalize humanPlayer.velocity
              else vec2Normalize (vec2Sub humanGoalCenter humanPlayer.position)
            ⟨max 0 (min ARENA_WIDTH (humanPlayer.position.x + humanDirection.x * passLead)),
             max 80 (min (ARENA_HEIGHT - 80)
               (humanPlayer.position.y + humanDirection.y * passLead))⟩
          else if distToHuman < 350 ∧ 40 < distToHuman then
            ⟨humanPlayer.position.x, humanPlayer.position.y⟩
          else if distToHuman < 50 then
            ⟨min (bot.position.x + 80) (humanGoalCenter.x - 60), bot.position.y⟩
          else ⟨humanGoalCenter.x, humanGoalCenter.y⟩
        else
          let teammateIndex := jsIndexOf humanTeam bot
          let spacingOffset := teammateIndex * 120 - 60
          if ballOnBotSide then
            ⟨max 0 (min ARENA_WIDTH (ball.position.x - 100)),
             max 60 (min (ARENA_HEIGHT - 60) (ball.position.y + spacingOffset))⟩
          else
            ⟨max 0 (min ARENA_WIDTH (centerX + 120)),
             max 60 (min (ARENA_HEIGHT - 60) (ball.position.y + spacingOffset))⟩
    else
      let is2v2 := gameMode = some GameMode.TwoVsTwo
      let is3v3 := gameMode = some GameMode.ThreeVsThree
      if is2v2 ∨ is3v3 then
        getOpponentCoordinatedPosition bot ball botTeam ballOnBotSide centerX centerY
          humanGoalCenter botHasBallControl predictedBallPos gameMode
      else
        -- 1v1 opponent: attack/defend
        let shouldAttack := ballOnBotSide ∧
          (botHasBallControl ∨ ballDistToHumanGoal < ballDistToBotGoal + 100)
        if shouldAttack then
          if botHasBallControl then
            ⟨humanGoalCenter.x, humanGoalCenter.y + (rand - 0.5) * 60⟩
          else
            let ballToGoal := vec2Sub humanGoalCenter ball.position
            let approachAngle := jsAtan2 ballToGoal.y ballToGoal.x
            ⟨ball.position.x - Real.cos approachAngle * 40,
             ball.position.y - Real.sin approachAngle * 40⟩
        else
          let ballToBotGoal := vec2Sub botGoalCenter ball.position
          let ballToGoalDist := vec2Distance ball.position botGoalCenter
          let t0 : Vec2 :=
            if ballToGoalDist < 0.1 then ⟨botGoalCenter.x, botGoalCenter.y⟩
            else if 20 < ballSpeed then
              let ballSpeedVec := vec2Normalize ball.velocity
              let ballToBotGoalNorm := vec2Normalize ballToBotGoal
              let dotProduct := vec2Dot ballSpeedVec ballToBotGoalNorm
              if -0.3 < dotProduct then
                let tgt := predictedBallPos
                let interceptDistToGoal := vec2Distance tgt botGoalCenter
                if interceptDistToGoal < 120 then
                  let t := min 1 (max 0 (100 / ballToGoalDist))
                  vec2Add ball.position (vec2Scale ballToBotGoal t)
                else tgt
              else
                let t := min 1 (max 0 (120 / ballToGoalDist))
                vec2Add ball.position (vec2Scale ballToBotGoal t)
            else
              let t := min 1 (max 0 (120 / ballToGoalDist))
              if 0.1 < ballToGoalDist then vec2Add ball.position (vec2Scale ballToBotGoal t)
              else ⟨ball.position.x, ball.position.y⟩
          ⟨max (centerX + 50) (min ARENA_WIDTH t0.x), max 0 (min ARENA_HEIGHT t0.y)⟩
  let direction0 := vec2Sub target bot.position
  let distToTarget := vec2Distance bot.position target
  let direction1 := if distToTarget < 0.1 then (⟨1, 0⟩ : Vec2) else direction0
  let direction2 :=
    if separationForce.x ≠ 0 ∨ separationForce.y ≠ 0 then
      let separationWeight : ℝ := if gameMode = some GameMode.ThreeVsThree then 0.5 else 0.4
      vec2Add (vec2Scale direction1 (1 - separationWeight))
        (vec2Scale separationForce separationWeight)
    else direction1
  let direction3 :=
    if isTeammate = true ∧ distToTarget < 80 ∧ 0.1 < distToTarget then
      let goalDirection := vec2Sub humanGoalCenter bot.position
      let goalDist := vec2Distance bot.position humanGoalCenter
      if 0.1 < goalDist then
        let blendFactor : ℝ := 0.2
        vec2Add (vec2Scale direction2 (1 - blendFactor)) (vec2Scale goalDirection blendFactor)
      else direction2
    else direction2
  vec2Normalize direction3

/-! ### Helper lemmas -/

lemma sqrtVal {x r : ℝ} (hr : 0 ≤ r) (h : r * r = x) : Real.sqrt x = r := by
  rw [← h]; exact Real.sqrt_mul_self hr

lemma le_sqrtVal {x c : ℝ} (hc : 0 ≤ c) (h : c * c ≤ x) : c ≤ Real.sqrt x := by
  calc c = Real.sqrt (c * c) := (Real.sqrt_mul_self hc).symm
  _ ≤ Real.sqrt x := Real.sqrt_le_sqrt h

lemma vec2Length_nonneg (v : Vec2) : 0 ≤ vec2Length v := Real.sqrt_nonneg _

lemma vec2Length_scale (v : Vec2) (s : ℝ) :
    vec2Length (vec2Scale v s) = |s| * vec2Length v := by
  unfold vec2Length vec2Scale
  simp only
  rw [show v.x * s * (v.x * s) + v.y * s * (v.y * s) = s * s * (v.x * v.x + v.y * v.y) by ring]
  rw [Real.sqrt_mul (mul_self_nonneg s), Real.sqrt_mul_self_eq_abs]

@[simp] lemma vec2Length_zero : vec2Length vec2Zero = 0 := by
  unfold vec2Length vec2Zero
  norm_num

/-- vec2Normalize yields a unit vector or the zero vector. -/
lemma vec2Normalize_unit_or_zero (v : Vec2) :
    vec2Length (vec2Normalize v) = 1 ∨ vec2Normalize v = vec2Zero := by
  unfold vec2Normalize
  by_cases h : vec2Length v < 0.0001
  · right; simp [h]
  · left
    rw [if_neg (by simpa using h), vec2Length_scale]
    have hpos : 0 < vec2Length v := lt_of_lt_of_le (by norm_num) (not_lt.mp h)
    rw [abs_of_nonneg (by positivity)]
    field_simp

/-! ### Claim C2 — post-update speed is capped at maxSpeed -/

lemma entity_update_speed_le (e : Entity) (dt : ℝ) (h : 0 ≤ e.maxSpeed) :
    vec2Length (e.update dt).velocity ≤ e.maxSpeed := by
  have hv : (Entity.update e dt).velocity =
      (let v1 : Vec2 := ⟨e.velocity.x * e.damping, e.velocity.y * e.damping⟩
       let speed := Real.sqrt (v1.x * v1.x + v1.y * v1.y)
       if e.maxSpeed < speed then ⟨v1.x * (e.maxSpeed / speed), v1.y * (e.maxSpeed / speed)⟩
       else v1) := rfl
  rw [hv]
  set v1 : Vec2 := ⟨e.velocity.x * e.damping, e.velocity.y * e.damping⟩ with hv1
  simp only
  by_cases hc : e.maxSpeed < Real.sqrt (v1.x * v1.x + v1.y * v1.y)
  · rw [if_pos hc]
    have hlen : vec2Length v1 = Real.sqrt (v1.x * v1.x + v1.y * v1.y) := rfl
    have hpos : 0 < Real.sqrt (v1.x * v1.x + v1.y * v1.y) := lt_of_le_of_lt h hc
    have hmk : (⟨v1.x * (e.maxSpeed / Real.sqrt (v1.x * v1.x + v1.y * v1.y)),
             v1.y * (e.maxSpeed / Real.sqrt (v1.x * v1.x + v1.y * v1.y))⟩ : Vec2) =
        vec2Scale v1 (e.maxSpeed / Real.sqrt (v1.x * v1.x + v1.y * v1.y)) := rfl
    rw [hmk, vec2Length_scale, hlen, abs_of_nonneg (div_nonneg h hpos.le),
      div_mul_cancel₀ _ hpos.ne']
  · rw [if_neg hc]
    exact not_lt.mp hc

/-- C2: for every entity — the base `Entity.update` as run for the Ball, and
`Player.update` with any acceleration multiplier and input acceleration —
and every dt > 0, the speed (velocity length) immediately after update is at
most the entity's maxSpeed, regardless of the pre-update speed. -/
theorem update_speed_le_maxSpeed (e : Entity) (p : Player)
    (dt accelerationMultiplier : ℝ) (hdt : 0 < dt)
    (he : 0 ≤ e.maxSpeed) (hp : 0 ≤ p.maxSpeed) :
    vec2Length (e.update dt).velocity ≤ e.maxSpeed ∧
    vec2Length (p.update dt accelerationMultiplier).velocity ≤ p.maxSpeed := by
  refine ⟨entity_update_speed_le e dt he, ?_⟩
  have hpv : (p.update dt accelerationMultiplier).velocity =
      (Entity.update { p.toEntity with velocity :=
        ⟨p.velocity.x + p.inputAcceleration.x * (PLAYER_ACCELERATION * accelerationMultiplier) * dt,
         p.velocity.y + p.inputAcceleration.y * (PLAYER_ACCELERATION * accelerationMultiplier) * dt⟩ }
        dt).velocity := rfl
  rw [hpv]
  exact entity_update_speed_le _ dt hp

/-- Witness for C2 at a concrete ball-entity, player, and timestep, the
pre-update ball speed being 500, above its 350 cap. -/
theorem update_speed_le_maxSpeed_witness :
    (0 : ℝ) < 1 / 60 ∧
    0 ≤ ({ (mkBall ⟨450, 270⟩).toEntity with velocity := ⟨300, 400⟩ } : Entity).maxSpeed ∧
    0 ≤ (mkPlayer ⟨250, 270⟩ true).maxSpeed ∧
    (vec2Length (({ (mkBall ⟨450, 270⟩).toEntity with velocity := ⟨300, 400⟩ } : Entity).update
        (1 / 60)).velocity ≤
      ({ (mkBall ⟨450, 270⟩).toEntity with velocity := ⟨300, 400⟩ } : Entity).maxSpeed ∧
     vec2Length ((mkPlayer ⟨250, 270⟩ true).update (1 / 60) 1).velocity ≤
      (mkPlayer ⟨250, 270⟩ true).maxSpeed) :=
  ⟨by norm_num,
   by norm_num [mkBall, BALL_MAX_SPEED],
   by norm_num [mkPlayer, PLAYER_MAX_SPEED],
   update_speed_le_maxSpeed _ _ _ 1 (by norm_num)
     (by norm_num [mkBall, BALL_MAX_SPEED]) (by norm_num [mkPlayer, PLAYER_MAX_SPEED])⟩

/-! ### Claim C3 — goal detection -/

/-- The spec's claim read literally: credits a goal exactly when the Ball is
FULLY past a goal line (the whole disc beyond the outer goal line at x = 0,
resp. x = arena width) while vertically within the goal-mouth span. -/
def fullyPastGoalSpec (ball : Ball) : Option GoalSide :=
  if ball.position.x + ball.radius < 0 ∧
     goalTop ≤ ball.position.y ∧ ball.position.y ≤ goalBottom then
    some GoalSide.right
  else if ARENA_WIDTH < ball.position.x - ball.radius ∧
     goalTop ≤ ball.position.y ∧ ball.position.y ≤ goalBottom then
    some GoalSide.left
  else none

/-- The amended claim's reading: credits a goal exactly when the Ball
overlaps past a goal line — its leading edge beyond the line
(x − radius < 0 on the left, x + radius > arena width on the right) — while
vertically within the goal-mouth span. -/
def overlapPastGoalSpec (ball : Ball) : Option GoalSide :=
  if ball.position.x - ball.radius < 0 ∧
     goalTop ≤ ball.position.y ∧ ball.position.y ≤ goalBottom then
    some GoalSide.right
  else if ARENA_WIDTH < ball.position.x + ball.radius ∧
     goalTop ≤ ball.position.y ∧ ball.position.y ≤ goalBottom then
    some GoalSide.left
  else none

/-- C3 counterexample: the Ball centered at (5, 270) — mid-mouth, radius 10,
straddling the left goal line but NOT fully past it — is credited as a
right-team goal by checkGoal, while the claim's "exactly when fully past"
reading yields no goal. -/
theorem checkGoal_fully_past_cex :
    checkGoal (mkBall ⟨5, 270⟩) = some GoalSide.right ∧
    fullyPastGoalSpec (mkBall ⟨5, 270⟩) = none ∧
    checkGoal (mkBall ⟨5, 270⟩) ≠ fullyPastGoalSpec (mkBall ⟨5, 270⟩) := by
  have h1 : checkGoal (mkBall ⟨5, 270⟩) = some GoalSide.right := by
    norm_num [checkGoal, mkBall, BALL_RADIUS, goalTop, goalBottom,
      ARENA_WIDTH, ARENA_HEIGHT, GOAL_HEIGHT]
  have h2 : fullyPastGoalSpec (mkBall ⟨5, 270⟩) = none := by
    norm_num [fullyPastGoalSpec, mkBall, BALL_RADIUS, goalTop, goalBottom,
      ARENA_WIDTH, ARENA_HEIGHT, GOAL_HEIGHT]
  exact ⟨h1, h2, by rw [h1, h2]; simp⟩

/-- C3 (amended): checkGoal credits the side opposite the entered goal
exactly when the Ball OVERLAPS past a goal line (leading edge beyond the
line) while vertically within the goal-mouth span; it returns none for any
position away from both goal lines; in particular a Ball at x = −1 with y
inside the goal-mouth span yields a right-team goal. -/
theorem checkGoal_spec (b : Ball) :
    checkGoal b = overlapPastGoalSpec b ∧
    (0 ≤ b.position.x - b.radius ∧ b.position.x + b.radius ≤ ARENA_WIDTH →
      checkGoal b = none) ∧
    (b.radius = 10 ∧ b.position.x = -1 ∧
      goalTop ≤ b.position.y ∧ b.position.y ≤ goalBottom →
      checkGoal b = some GoalSide.right) := by
  refine ⟨rfl, ?_, ?_⟩
  · rintro ⟨h1, h2⟩
    unfold checkGoal
    rw [if_neg (by rintro ⟨h, -⟩; linarith), if_neg (by rintro ⟨h, -⟩; linarith)]
  · rintro ⟨hr, hx, hy1, hy2⟩
    unfold checkGoal
    rw [if_pos ⟨by rw [hr, hx]; norm_num, hy1, hy2⟩]

/-! ### Claim C8 — detection symmetry -/

lemma vec2Normalize_neg (v : Vec2) :
    vec2Normalize ⟨-v.x, -v.y⟩ = vec2Scale (vec2Normalize v) (-1) := by
  unfold vec2Normalize
  have hl : vec2Length ⟨-v.x, -v.y⟩ = vec2Length v := by
    unfold vec2Length
    simp only [vec2_mk_x, vec2_mk_y]
    congr 1
    ring
  rw [hl]
  by_cases h : vec2Length v < 0.0001
  · rw [if_pos h, if_pos h]
    unfold vec2Zero vec2Scale
    ext <;> simp
  · rw [if_neg h, if_neg h]
    unfold vec2Scale
    ext <;> simp [mul_comm, mul_assoc, mul_left_comm]

/-- C8 counterexample: two players with coincident centers overlap, and both
argument orders report the default normal (1, 0) — equal, not opposite. -/
theorem detect_symm_cex :
    (detectCircleCollision (mkPlayer ⟨100, 100⟩ true).toEntity
        (mkPlayer ⟨100, 100⟩ false).toEntity).map Collision.normal = some ⟨1, 0⟩ ∧
    (detectCircleCollision (mkPlayer ⟨100, 100⟩ false).toEntity
        (mkPlayer ⟨100, 100⟩ true).toEntity).map Collision.normal = some ⟨1, 0⟩ ∧
    ¬ (some (⟨1, 0⟩ : Vec2) = some (vec2Scale ⟨1, 0⟩ (-1))) := by
  refine ⟨?_, ?_, ?_⟩ <;>
    norm_num [detectCircleCollision, mkPlayer, PLAYER_RADIUS, vec2Scale, Vec2.ext_iff]

/-- C8 (amended): detect(a,b) and detect(b,a) agree on overlap and report
equal penetrations; their normals are negations of each other whenever the
centers are more than the 1e-4 degeneracy threshold apart, while at
(near-)coincident centers both orders return the default normal (1, 0). -/
theorem detect_symm (a b : Entity) :
    ((detectCircleCollision a b).isSome ↔ (detectCircleCollision b a).isSome) ∧
    (∀ c c', detectCircleCollision a b = some c → detectCircleCollision b a = some c' →
      c.penetration = c'.penetration ∧
      (0.0001 < vec2Distance a.position b.position →
        c'.normal = vec2Scale c.normal (-1)) ∧
      (vec2Distance a.position b.position ≤ 0.0001 →
        c.normal = ⟨1, 0⟩ ∧ c'.normal = ⟨1, 0⟩)) := by
  have hdist : vec2Distance a.position b.position =
      Real.sqrt ((b.position.x - a.position.x) * (b.position.x - a.position.x) +
        (b.position.y - a.position.y) * (b.position.y - a.position.y)) := by
    unfold vec2Distance vec2Length vec2Sub
    simp only [vec2_mk_x, vec2_mk_y]
    congr 1
    ring
  simp only [detectCircleCollision]
  have hsq : a.position.x - b.position.x = -(b.position.x - a.position.x) := by ring
  have hsq' : a.position.y - b.position.y = -(b.position.y - a.position.y) := by ring
  rw [hsq, hsq']
  set dx := b.position.x - a.position.x with hdx
  set dy := b.position.y - a.position.y with hdy
  have hD : -dx * -dx + -dy * -dy = dx * dx + dy * dy := by ring
  have hM : b.radius + a.radius = a.radius + b.radius := by ring
  rw [hD, hM]
  by_cases hc : (a.radius + b.radius) * (a.radius + b.radius) ≤ dx * dx + dy * dy
  · rw [if_pos hc, if_pos hc]
    simp
  · rw [if_neg hc, if_neg hc]
    refine ⟨by simp, ?_⟩
    intro c c' habc habc'
    have hcv : c = ⟨a, b,
        if 0.0001 < Real.sqrt (dx * dx + dy * dy) then vec2Normalize ⟨dx, dy⟩
        else (⟨1, 0⟩ : Vec2), a.radius + b.radius - Real.sqrt (dx * dx + dy * dy)⟩ :=
      (Option.some_injective _ habc).symm
    have hcv' : c' = ⟨b, a,
        if 0.0001 < Real.sqrt (dx * dx + dy * dy) then vec2Normalize ⟨-dx, -dy⟩
        else (⟨1, 0⟩ : Vec2), a.radius + b.radius - Real.sqrt (dx * dx + dy * dy)⟩ :=
      (Option.some_injective _ habc').symm
    subst hcv hcv'
    refine ⟨rfl, ?_, ?_⟩
    · intro hfar
      rw [hdist] at hfar
      rw [if_pos hfar, if_pos hfar]
      exact vec2Normalize_neg ⟨dx, dy⟩
    · intro hnear
      rw [hdist] at hnear
      rw [if_neg (not_lt.mpr hnear), if_neg (not_lt.mpr hnear)]
      exact ⟨rfl, rfl⟩

/-! ### Claim C7 — equal-mass, restitution-1 head-on collisions exchange velocities -/

lemma resolveCircleCorrection_fields (col : Collision) :
    (resolveCircleCorrection col).1.velocity = col.entityA.velocity ∧
    (resolveCircleCorrection col).2.velocity = col.entityB.velocity ∧
    (resolveCircleCorrection col).1.restitution = col.entityA.restitution ∧
    (resolveCircleCorrection col).2.restitution = col.entityB.restitution ∧
    (resolveCircleCorrection col).1.invMass = col.entityA.invMass ∧
    (resolveCircleCorrection col).2.invMass = col.entityB.invMass ∧
    (resolveCircleCorrection col).1.radius = col.entityA.radius ∧
    (resolveCircleCorrection col).2.radius = col.entityB.radius := by
  simp only [resolveCircleCorrection]
  split_ifs <;> exact ⟨rfl, rfl, rfl, rfl, rfl, rfl, rfl, rfl⟩

/-- C7: for a collision between overlapping entities of equal positive mass
and restitution 1 whose relative velocity lies directly along the contact
normal and is closing, resolveCircleCollision exactly exchanges the two
velocities. -/
theorem resolve_headon_exchange (col : Collision) (dt : ℝ)
    (hmass : col.entityA.mass = col.entityB.mass) (hpos : 0 < col.entityA.mass)
    (hra : col.entityA.restitution = 1) (hrb : col.entityB.restitution = 1)
    (hhead : vec2Sub col.entityB.velocity col.entityA.velocity =
      vec2Scale col.normal
        (vec2Dot (vec2Sub col.entityB.velocity col.entityA.velocity) col.normal))
    (hclose : vec2Dot (vec2Sub col.entityB.velocity col.entityA.velocity) col.normal ≤ 0) :
    (resolveCircleCollision col dt).1.velocity = col.entityB.velocity ∧
    (resolveCircleCollision col dt).2.velocity = col.entityA.velocity := by
  obtain ⟨hv1, hv2, hr1, hr2, hi1, hi2, -, -⟩ := resolveCircleCorrection_fields col
  have hm : col.entityA.mass ≠ 0 := ne_of_gt hpos
  have hiA : col.entityA.invMass = 1 / col.entityA.mass := by
    unfold Entity.invMass
    rw [if_pos hpos]
  have hiB : col.entityB.invMass = 1 / col.entityA.mass := by
    unfold Entity.invMass
    rw [← hmass, if_pos hpos]
  have hsumpos : 0 < col.entityA.invMass + col.entityB.invMass := by
    rw [hiA, hiB]
    positivity
  have hkx : col.entityB.velocity.x - col.entityA.velocity.x = col.normal.x *
      vec2Dot (vec2Sub col.entityB.velocity col.entityA.velocity) col.normal :=
    congrArg Vec2.x hhead
  have hky : col.entityB.velocity.y - col.entityA.velocity.y = col.normal.y *
      vec2Dot (vec2Sub col.entityB.velocity col.entityA.velocity) col.normal :=
    congrArg Vec2.y hhead
  simp only [resolveCircleCollision, Entity.applyImpulse]
  rw [hv1, hv2, hr1, hr2, hi1, hi2]
  rw [if_neg (not_lt.mpr hclose), if_neg (ne_of_gt hsumpos)]
  rw [hra, hrb, hiA, hiB]
  set m := col.entityA.mass with hmdef
  set k := vec2Dot (vec2Sub col.entityB.velocity col.entityA.velocity) col.normal with hkdef
  have hfacA : ∀ c : ℝ, c * (-(1 + (1 : ℝ) ⊓ 1) * k / (1 / m + 1 / m)) * -1 * (1 / m) = c * k := by
    intro c
    rw [min_self]
    field_simp
    ring
  have hfacB : ∀ c : ℝ, c * (-(1 + (1 : ℝ) ⊓ 1) * k / (1 / m + 1 / m)) * (1 / m) = -(c * k) := by
    intro c
    rw [min_self]
    field_simp
    ring
  constructor
  · apply Vec2.ext
    · show col.entityA.velocity.x + _ = _
      simp only [vec2Scale, vec2_mk_x]
      rw [hfacA]
      linarith [hkx]
    · show col.entityA.velocity.y + _ = _
      simp only [vec2Scale, vec2_mk_y]
      rw [hfacA]
      linarith [hky]
  · apply Vec2.ext
    · show col.entityB.velocity.x + _ = _
      simp only [vec2Scale, vec2_mk_x]
      rw [hfacB]
      linarith [hkx]
    · show col.entityB.velocity.y + _ = _
      simp only [vec2Scale, vec2_mk_y]
      rw [hfacB]
      linarith [hky]

/-- A concrete head-on collision: equal masses 1, restitution 1, velocities
(50, 0) and (−50, 0) along the normal (1, 0). -/
def headonCollision : Collision :=
  { entityA := { type := EntityType.player, position := ⟨0, 0⟩, velocity := ⟨50, 0⟩,
                 radius := 18, mass := 1, restitution := 1, maxSpeed := 180, damping := 0.991 }
    entityB := { type := EntityType.player, position := ⟨5, 0⟩, velocity := ⟨-50, 0⟩,
                 radius := 18, mass := 1, restitution := 1, maxSpeed := 180, damping := 0.991 }
    normal := ⟨1, 0⟩
    penetration := 31 }

/-- Witness for C7 at the concrete head-on collision. -/
theorem resolve_headon_exchange_witness :
    (headonCollision.entityA.mass = headonCollision.entityB.mass ∧
     0 < headonCollision.entityA.mass ∧
     headonCollision.entityA.restitution = 1 ∧ headonCollision.entityB.restitution = 1 ∧
     vec2Sub headonCollision.entityB.velocity headonCollision.entityA.velocity =
       vec2Scale headonCollision.normal
         (vec2Dot (vec2Sub headonCollision.entityB.velocity headonCollision.entityA.velocity)
           headonCollision.normal) ∧
     vec2Dot (vec2Sub headonCollision.entityB.velocity headonCollision.entityA.velocity)
       headonCollision.normal ≤ 0) ∧
    ((resolveCircleCollision headonCollision 1).1.velocity = headonCollision.entityB.velocity ∧
     (resolveCircleCollision headonCollision 1).2.velocity = headonCollision.entityA.velocity) :=
  ⟨⟨rfl, by norm_num [headonCollision],
    rfl, rfl,
    by norm_num [headonCollision, vec2Sub, vec2Scale, vec2Dot, Vec2.ext_iff],
    by norm_num [headonCollision, vec2Sub, vec2Dot]⟩,
   resolve_headon_exchange headonCollision 1 rfl (by norm_num [headonCollision]) rfl rfl
     (by norm_num [headonCollision, vec2Sub, vec2Scale, vec2Dot, Vec2.ext_iff])
     (by norm_num [headonCollision, vec2Sub, vec2Dot])⟩

/-! ### Claim C6 — a resolution pass never increases overlap -/

lemma resolveCircleCollision_position (col : Collision) (dt : ℝ) :
    (resolveCircleCollision col dt).1.position = (resolveCircleCorrection col).1.position ∧
    (resolveCircleCollision col dt).2.position = (resolveCircleCorrection col).2.position ∧
    (resolveCircleCollision col dt).1.radius = (resolveCircleCorrection col).1.radius ∧
    (resolveCircleCollision col dt).2.radius = (resolveCircleCorrection col).2.radius := by
  simp only [resolveCircleCollision, Entity.applyImpulse]
  split_ifs <;> exact ⟨rfl, rfl, rfl, rfl⟩

set_option maxHeartbeats 1600000 in
/-- C6: one resolution pass on a detected collision never increases the
overlap: the recomputed penetration (sum of radii minus the new center
distance) after resolveCircleCollision is at most the collision's
penetration, under slop 0.1 and correction fraction 0.8; equivalently the
center distance does not shrink. -/
theorem resolve_no_overlap_increase (a b : Entity) (col : Collision) (dt : ℝ)
    (h : detectCircleCollision a b = some col) :
    vec2Distance a.position b.position ≤
      vec2Distance (resolveCircleCollision col dt).1.position
        (resolveCircleCollision col dt).2.position ∧
    ((resolveCircleCollision col dt).1.radius + (resolveCircleCollision col dt).2.radius) -
      vec2Distance (resolveCircleCollision col dt).1.position
        (resolveCircleCollision col dt).2.position ≤ col.penetration := by
  obtain ⟨hp1, hp2, hr1, hr2⟩ := resolveCircleCollision_position col dt
  rw [hp1, hp2, hr1, hr2]
  simp only [detectCircleCollision] at h
  set dx := b.position.x - a.position.x with hdx
  set dy := b.position.y - a.position.y with hdy
  by_cases hc : (a.radius + b.radius) * (a.radius + b.radius) ≤ dx * dx + dy * dy
  · rw [if_pos hc] at h
    exact absurd h (by simp)
  · rw [if_neg hc] at h
    have hcol : col = ⟨a, b,
        if 0.0001 < Real.sqrt (dx * dx + dy * dy) then vec2Normalize ⟨dx, dy⟩
        else (⟨1, 0⟩ : Vec2), a.radius + b.radius - Real.sqrt (dx * dx + dy * dy)⟩ :=
      (Option.some_injective _ h).symm
    subst hcol
    set D := Real.sqrt (dx * dx + dy * dy) with hDdef
    have hD0 : 0 ≤ D := Real.sqrt_nonneg _
    have hDdist : vec2Distance a.position b.position = D := by
      unfold vec2Distance vec2Length vec2Sub
      simp only [vec2_mk_x, vec2_mk_y]
      rw [hDdef]
      congr 1
      rw [hdx, hdy]
      ring
    rw [hDdist]
    obtain ⟨-, -, -, -, -, -, hra1, hrb1⟩ :=
      resolveCircleCorrection_fields
        ⟨a, b, if 0.0001 < D then vec2Normalize ⟨dx, dy⟩ else (⟨1, 0⟩ : Vec2),
         a.radius + b.radius - D⟩
    rw [hra1, hrb1]
    dsimp only
    -- it suffices to show the corrected distance does not shrink
    suffices hmain : D ≤ vec2Distance (resolveCircleCorrection
        ⟨a, b, if 0.0001 < D then vec2Normalize ⟨dx, dy⟩ else (⟨1, 0⟩ : Vec2),
         a.radius + b.radius - D⟩).1.position (resolveCircleCorrection
        ⟨a, b, if 0.0001 < D then vec2Normalize ⟨dx, dy⟩ else (⟨1, 0⟩ : Vec2),
         a.radius + b.radius - D⟩).2.position by
      constructor
      · exact hmain
      · linarith [hmain]
    simp only [resolveCircleCorrection]
    split_ifs with hslop hinv hfar
    · -- correction applied, non-degenerate normal
      have hDpos : (0 : ℝ) < D := lt_trans (by norm_num) hfar
      have hnormalize : vec2Normalize ⟨dx, dy⟩ = vec2Scale ⟨dx, dy⟩ (1 / D) := by
        unfold vec2Normalize
        rw [if_neg (by
          rw [show vec2Length ⟨dx, dy⟩ = D from rfl]
          exact not_lt.mpr (le_of_lt hfar))]
        rfl
      rw [hnormalize]
      set pen := a.radius + b.radius - D with hpen
      set c := POSITION_CORRECTION_PERCENT * pen with hcdef
      have hcpos : 0 < c := by
        rw [hcdef]
        unfold POSITION_CORRECTION_PERCENT
        unfold COLLISION_SLOP at hslop
        nlinarith
      dsimp only
      have harg : vec2Sub
          (⟨a.position.x - (vec2Scale ⟨dx, dy⟩ (1 / D)).x *
              (c * (a.invMass / (a.invMass + b.invMass))),
            a.position.y - (vec2Scale ⟨dx, dy⟩ (1 / D)).y *
              (c * (a.invMass / (a.invMass + b.invMass)))⟩ : Vec2)
          (⟨b.position.x + (vec2Scale ⟨dx, dy⟩ (1 / D)).x *
              (c * (b.invMass / (a.invMass + b.invMass))),
            b.position.y + (vec2Scale ⟨dx, dy⟩ (1 / D)).y *
              (c * (b.invMass / (a.invMass + b.invMass)))⟩ : Vec2) =
          vec2Scale ⟨dx, dy⟩ (-(1 + c / D)) := by
        apply Vec2.ext <;>
          (simp only [vec2Sub, vec2Scale, vec2_mk_x, vec2_mk_y]
           simp only [hdx, hdy]
           field_simp [ne_of_gt hinv, hDpos.ne']
           ring)
      show D ≤ vec2Distance _ _
      unfold vec2Distance
      have hcd : (0 : ℝ) ≤ 1 + c / D := by
        have := div_nonneg hcpos.le hDpos.le
        linarith
      rw [harg, vec2Length_scale, show vec2Length ⟨dx, dy⟩ = D from rfl, abs_neg,
        abs_of_nonneg hcd]
      have hexp : (1 + c / D) * D = D + c := by
        field_simp
      rw [hexp]
      linarith
    · -- correction applied, degenerate default normal (1, 0)
      set pen := a.radius + b.radius - D with hpen
      set c := POSITION_CORRECTION_PERCENT * pen with hcdef
      have hcbig : 0.08 < c := by
        rw [hcdef]
        unfold POSITION_CORRECTION_PERCENT
        unfold COLLISION_SLOP at hslop
        nlinarith
      have hDsmall : D ≤ 0.0001 := not_lt.mp hfar
      have hdxle : |dx| ≤ D := by
        rw [← Real.sqrt_mul_self_eq_abs, hDdef]
        exact Real.sqrt_le_sqrt (by nlinarith [sq_nonneg dy, mul_self_nonneg dy])
      have hdxge : -(0.0001 : ℝ) ≤ dx := le_trans (by linarith [abs_le.mp hdxle]) le_rfl
      dsimp only
      have harg : vec2Sub
          (⟨a.position.x - (⟨1, 0⟩ : Vec2).x * (c * (a.invMass / (a.invMass + b.invMass))),
            a.position.y - (⟨1, 0⟩ : Vec2).y * (c * (a.invMass / (a.invMass + b.invMass)))⟩ : Vec2)
          (⟨b.position.x + (⟨1, 0⟩ : Vec2).x * (c * (b.invMass / (a.invMass + b.invMass))),
            b.position.y + (⟨1, 0⟩ : Vec2).y * (c * (b.invMass / (a.invMass + b.invMass)))⟩ : Vec2) =
          (⟨-(dx + c), -dy⟩ : Vec2) := by
        apply Vec2.ext <;>
          (simp only [vec2Sub, vec2_mk_x, vec2_mk_y]
           simp only [hdx, hdy]
           field_simp [ne_of_gt hinv]
           try ring)
      show D ≤ vec2Distance _ _
      unfold vec2Distance
      rw [harg]
      unfold vec2Length
      simp only [vec2_mk_x, vec2_mk_y]
      rw [hDdef]
      apply Real.sqrt_le_sqrt
      nlinarith [abs_le.mp hdxle]
    · -- immovable pair: positions unchanged
      exact le_of_eq hDdist.symm
    · -- below the slop threshold: positions unchanged
      exact le_of_eq hDdist.symm

/-- A concrete overlapping pair for the C6 witness: unit-mass circles of
radius 18 at distance 10, penetration 26. -/
def probeA : Entity :=
  { type := EntityType.player, position := ⟨0, 0⟩, velocity := ⟨0, 0⟩, radius := 18,
    mass := 1, restitution := 0.35, maxSpeed := 180, damping := 0.991 }

def probeB : Entity :=
  { type := EntityType.player, position := ⟨10, 0⟩, velocity := ⟨0, 0⟩, radius := 18,
    mass := 1, restitution := 0.35, maxSpeed := 180, damping := 0.991 }

def probeCollision : Collision :=
  { entityA := probeA, entityB := probeB, normal := ⟨1, 0⟩, penetration := 26 }

/-- Witness for C6 at the concrete overlapping pair. -/
theorem resolve_no_overlap_increase_witness :
    detectCircleCollision probeA probeB = some probeCollision ∧
    (vec2Distance probeA.position probeB.position ≤
      vec2Distance (resolveCircleCollision probeCollision 1).1.position
        (resolveCircleCollision probeCollision 1).2.position ∧
     ((resolveCircleCollision probeCollision 1).1.radius +
       (resolveCircleCollision probeCollision 1).2.radius) -
      vec2Distance (resolveCircleCollision probeCollision 1).1.position
        (resolveCircleCollision probeCollision 1).2.position ≤ probeCollision.penetration) := by
  have h100 : Real.sqrt (100 : ℝ) = 10 := sqrtVal (by norm_num) (by norm_num)
  have h : detectCircleCollision probeA probeB = some probeCollision := by
    simp only [detectCircleCollision, probeA, probeB, probeCollision]
    norm_num [h100, vec2Normalize, vec2Length, vec2Scale, Collision.mk.injEq, Vec2.ext_iff]
  exact ⟨h, resolve_no_overlap_increase probeA probeB probeCollision 1 h⟩

/-! ### Claims C4 and C10 — tryKick guards and frame condition -/

/-- C4: tryKick returns false whenever the Ball is frozen (regardless of
player-to-ball distance) or the player-to-ball distance exceeds the kick
radius, and in every such failing case no state of the World is modified.
The source's non-finite-coordinate guards are identically true in this
exact real-number model, so that failing case is unpopulated here. -/
theorem tryKick_guards (w : World) (player : Player)
    (h : w.ball.isFrozen = true ∨ KICK_RADIUS < vec2Distance player.position w.ball.position) :
    w.tryKick player = (w, false) := by
  simp only [World.tryKick]
  rw [if_neg]
  rintro ⟨hd, hf⟩
  rcases h with h | h
  · rw [h] at hf
    exact Bool.noConfusion hf
  · exact absurd hd (not_le.mpr h)

/-- A 1v1 world whose ball has just been frozen, for the C4 witness. -/
def frozenWorld : World :=
  { mkWorld GameMode.OneVsOne with ball := (mkWorld GameMode.OneVsOne).ball.freeze 1 }

/-- Witness for C4: kicking a frozen ball fails and changes nothing. -/
theorem tryKick_guards_witness :
    (frozenWorld.ball.isFrozen = true ∨
      KICK_RADIUS < vec2Distance (mkPlayer ⟨250, 270⟩ true).position frozenWorld.ball.position) ∧
    frozenWorld.tryKick (mkPlayer ⟨250, 270⟩ true) = (frozenWorld, false) :=
  ⟨Or.inl rfl, tryKick_guards frozenWorld (mkPlayer ⟨250, 270⟩ true) (Or.inl rfl)⟩

/-- C10: whenever tryKick returns true, the only World state it has changed
is the Ball's velocity — rosters (positions, velocities, input
accelerations), the Ball's position, frozen flag and freeze timer, both
score counters, the pause flag, the kickoff timer and the mode are all
unchanged. -/
theorem tryKick_frame (w : World) (player : Player) (w' : World)
    (h : w.tryKick player = (w', true)) :
    w' = { w with ball := { w.ball with velocity := w'.ball.velocity } } ∧
    w'.humanTeam = w.humanTeam ∧ w'.botTeam = w.botTeam ∧
    w'.ball.position = w.ball.position ∧
    w'.ball.isFrozen = w.ball.isFrozen ∧ w'.ball.freezeTime = w.ball.freezeTime ∧
    w'.scoreHuman = w.scoreHuman ∧ w'.scoreBot = w.scoreBot ∧
    w'.isPaused = w.isPaused ∧ w'.kickoffFreezeTime = w.kickoffFreezeTime ∧
    w'.gameMode = w.gameMode := by
  simp only [World.tryKick] at h
  split_ifs at h <;> rw [Prod.mk.injEq] at h <;>
    first
      | exact absurd h.2 Bool.false_ne_true
      | (obtain ⟨hw, -⟩ := h
         subst hw
         exact ⟨rfl, rfl, rfl, rfl, rfl, rfl, rfl, rfl, rfl, rfl, rfl⟩)


/-- A 1v1 world with the ball 20px from the human player, for the C10
witness. -/
def kickWorld : World :=
  { mkWorld GameMode.OneVsOne with
      ball := { (mkWorld GameMode.OneVsOne).ball with position := ⟨270, 270⟩ } }

def kicker : Player := { mkPlayer ⟨250, 270⟩ true with inputAcceleration := ⟨1, 0⟩ }

def kickedWorld : World :=
  { kickWorld with ball := { kickWorld.ball with velocity := ⟨320, 0⟩ } }

/-- Witness for C10 at a concrete successful kick: the ball velocity becomes
(320, 0) and everything else is untouched. -/
theorem tryKick_frame_witness :
    kickWorld.tryKick kicker = (kickedWorld, true) ∧
    (kickedWorld = { kickWorld with
        ball := { kickWorld.ball with velocity := kickedWorld.ball.velocity } } ∧
      kickedWorld.humanTeam = kickWorld.humanTeam ∧
      kickedWorld.botTeam = kickWorld.botTeam ∧
      kickedWorld.ball.position = kickWorld.ball.position ∧
      kickedWorld.ball.isFrozen = kickWorld.ball.isFrozen ∧
      kickedWorld.ball.freezeTime = kickWorld.ball.freezeTime ∧
      kickedWorld.scoreHuman = kickWorld.scoreHuman ∧
      kickedWorld.scoreBot = kickWorld.scoreBot ∧
      kickedWorld.isPaused = kickWorld.isPaused ∧
      kickedWorld.kickoffFreezeTime = kickWorld.kickoffFreezeTime ∧
      kickedWorld.gameMode = kickWorld.gameMode) := by
  have h400 : Real.sqrt (400 : ℝ) = 20 := sqrtVal (by norm_num) (by norm_num)
  have h1 : Real.sqrt (1 : ℝ) = 1 := sqrtVal (by norm_num) (by norm_num)
  have h : kickWorld.tryKick kicker = (kickedWorld, true) := by
    simp only [World.tryKick, kickWorld, kicker, kickedWorld, mkWorld, mkPlayer, mkBall,
      vec2Distance, vec2Length, vec2Sub, vec2Normalize, vec2Scale, vec2Zero,
      KICK_RADIUS, KICK_FORCE, ARENA_WIDTH, ARENA_HEIGHT, BALL_RADIUS, BALL_MASS,
      BALL_RESTITUTION, BALL_MAX_SPEED, BALL_DAMPING, vec2_mk_x, vec2_mk_y]
    norm_num [h400, h1]
  exact ⟨h, tryKick_frame kickWorld kicker kickedWorld h⟩

/-! ### Claim C5 — tryPass guards -/

lemma tryPassHumanBranch_spec (w : World) (player : Player) (w1 : World) (q : Player)
    (h : tryPassHumanBranch w player = some (w1, q)) :
    ¬(q = player) ∧ vec2Distance player.position q.position < 500 := by
  simp only [tryPassHumanBranch] at h
  split at h
  · exact Option.noConfusion h
  · split_ifs at h with hmem hopen hspeed <;>
      first
        | exact Option.noConfusion h
        | (rw [Option.some.injEq, Prod.mk.injEq] at h
           obtain ⟨-, rfl⟩ := h
           exact ⟨hmem.2, hopen.1.2⟩)

lemma tryPassScan_spec (w : World) (player : Player) :
    ∀ (l : List Player) (acc : Option (Player × ℝ)) (t : Player) (s : ℝ),
      l.foldl (tryPassScanStep w player) acc = some (t, s) →
      acc = some (t, s) ∨ (t ∈ l ∧ 30 < vec2Distance player.position t.position ∧
        vec2Distance player.position t.position < 400) := by
  intro l
  induction l with
  | nil => exact fun acc t s h => Or.inl h
  | cons x xs ih =>
    intro acc t s h
    rcases ih _ t s h with hacc | hmem
    · simp only [tryPassScanStep] at hacc
      split_ifs at hacc with h1 h2
      · exact Or.inl hacc
      · rw [Option.some.injEq, Prod.mk.injEq] at hacc
        obtain ⟨rfl, -⟩ := hacc
        exact Or.inr ⟨List.mem_cons_self x xs, h2.2.1, h2.1⟩
      · exact Or.inl hacc
    · exact Or.inr ⟨List.mem_cons_of_mem x hmem.1, hmem.2⟩

lemma tryPass_roster_spec (w : World) (player : Player) (roster : List Player)
    (w' : World) (q : Player)
    (h : (if (roster.filter (fun p => decide ¬(p = player))).isEmpty then (w, none)
      else
        match tryPassHumanBranch w player with
        | some wh => (wh.1, some wh.2)
        | none =>
          match (roster.filter (fun p => decide ¬(p = player))).foldl
              (tryPassScanStep w player) none with
          | none => (w, none)
          | some best => (tryPassExecute w player best.1, some best.1)) = (w', some q)) :
    ¬(q = player) ∧ vec2Distance player.position q.position ≤ 500 := by
  split at h
  · exact Option.noConfusion (congrArg Prod.snd h)
  · split at h
    · rename_i wh hhb
      have hq : wh.2 = q := Option.some.inj (congrArg Prod.snd h)
      obtain ⟨hne, hdist⟩ := tryPassHumanBranch_spec w player wh.1 wh.2 (by rw [hhb])
      rw [← hq]
      exact ⟨hne, le_of_lt hdist⟩
    · split at h
      · exact Option.noConfusion (congrArg Prod.snd h)
      · rename_i best hbest
        have hq : best.1 = q := Option.some.inj (congrArg Prod.snd h)
        have hscan := tryPassScan_spec w player _ none best.1 best.2 (by rw [hbest])
        rcases hscan with habs | ⟨hmem, h30, h400⟩
        · exact Option.noConfusion habs
        · rw [← hq]
          exact ⟨of_decide_eq_true (List.mem_filter.mp hmem).2,
            le_of_lt (lt_trans h400 (by norm_num))⟩

/-- C5: tryPass never returns the passer itself as the receiver, never
returns a receiver farther than 500px from the passer, and returns no
target with the World unchanged whenever the Ball is frozen. -/
theorem tryPass_guards (w : World) (player : Player) :
    (w.ball.isFrozen = true → w.tryPass player = (w, none)) ∧
    (∀ (w' : World) (q : Player), w.tryPass player = (w', some q) →
      ¬(q = player) ∧ vec2Distance player.position q.position ≤ 500) := by
  constructor
  · intro hf
    simp only [World.tryPass]
    rw [if_pos (Or.inr hf)]
  · intro w' q h
    simp only [World.tryPass] at h
    split at h
    · exact Option.noConfusion (congrArg Prod.snd h)
    · by_cases hteam : player ∈ w.humanTeam
      · rw [if_pos hteam] at h
        exact tryPass_roster_spec w player w.humanTeam w' q h
      · rw [if_neg hteam] at h
        exact tryPass_roster_spec w player w.botTeam w' q h

/-! ### Claim C1 — a goal tick bumps one score, resets the kickoff layout,
freezes the ball and skips the collision pass -/

/-- The mode's fixed human-roster kickoff coordinates (the constructor's
spawn points, reapplied verbatim by resetKickoff). -/
def humanKickoffList : GameMode → List Vec2
  | GameMode.OneVsOne => [⟨250, 270⟩]
  | GameMode.TwoVsTwo => [⟨250, 270⟩, ⟨300, 190⟩]
  | GameMode.ThreeVsThree => [⟨250, 270⟩, ⟨300, 170⟩, ⟨300, 370⟩]

/-- The mode's fixed bot-roster kickoff coordinates. -/
def botKickoffList : GameMode → List Vec2
  | GameMode.OneVsOne => [⟨650, 270⟩]
  | GameMode.TwoVsTwo => [⟨650, 270⟩, ⟨600, 190⟩]
  | GameMode.ThreeVsThree => [⟨650, 270⟩, ⟨600, 170⟩, ⟨600, 370⟩]

lemma resetKickoff_spec (w : World)
    (hh : w.humanTeam.length = teamSize w.gameMode)
    (hb : w.botTeam.length = teamSize w.gameMode) :
    w.resetKickoff.humanTeam.map (fun p => p.position) = humanKickoffList w.gameMode ∧
    w.resetKickoff.humanTeam.map (fun p => p.velocity) =
      List.replicate (teamSize w.gameMode) vec2Zero ∧
    w.resetKickoff.botTeam.map (fun p => p.position) = botKickoffList w.gameMode ∧
    w.resetKickoff.botTeam.map (fun p => p.velocity) =
      List.replicate (teamSize w.gameMode) vec2Zero ∧
    w.resetKickoff.ball.position = ⟨ARENA_WIDTH / 2, ARENA_HEIGHT / 2⟩ ∧
    w.resetKickoff.ball.velocity = vec2Zero ∧
    w.resetKickoff.ball.isFrozen = true ∧
    w.resetKickoff.ball.freezeTime = 1 ∧
    w.resetKickoff.kickoffFreezeTime = 1 ∧
    w.resetKickoff.scoreHuman = w.scoreHuman ∧
    w.resetKickoff.scoreBot = w.scoreBot := by
  obtain ⟨ht, bt, ball, sh, sb, kt, ip, gm⟩ := w
  cases gm <;> simp only [teamSize] at hh hb
  · obtain ⟨a0, rfl⟩ := List.length_eq_one.mp hh
    obtain ⟨c0, rfl⟩ := List.length_eq_one.mp hb
    refine ⟨?_, ?_, ?_, ?_, rfl, rfl, rfl, rfl, rfl, rfl, rfl⟩ <;>
      norm_num [World.resetKickoff, resetSlot, humanKickoffList, botKickoffList,
        List.get?_cons_zero, List.set_cons_zero, vec2Zero, ARENA_WIDTH, ARENA_HEIGHT,
        Vec2.ext_iff, List.replicate, teamSize]
  · obtain ⟨a0, a1, rfl⟩ := List.length_eq_two.mp hh
    obtain ⟨c0, c1, rfl⟩ := List.length_eq_two.mp hb
    refine ⟨?_, ?_, ?_, ?_, rfl, rfl, rfl, rfl, rfl, rfl, rfl⟩ <;>
      norm_num [World.resetKickoff, resetSlot, humanKickoffList, botKickoffList,
        List.get?_cons_zero, List.get?_cons_succ, List.set_cons_zero, List.set_cons_succ,
        vec2Zero, ARENA_WIDTH, ARENA_HEIGHT, Vec2.ext_iff, List.replicate, teamSize]
  · obtain ⟨a0, a1, a2, rfl⟩ := List.length_eq_three.mp hh
    obtain ⟨c0, c1, c2, rfl⟩ := List.length_eq_three.mp hb
    refine ⟨?_, ?_, ?_, ?_, rfl, rfl, rfl, rfl, rfl, rfl, rfl⟩ <;>
      norm_num [World.resetKickoff, resetSlot, humanKickoffList, botKickoffList,
        List.get?_cons_zero, List.get?_cons_succ, List.set_cons_zero, List.set_cons_succ,
        vec2Zero, ARENA_WIDTH, ARENA_HEIGHT, Vec2.ext_iff, List.replicate, teamSize]


lemma advanceKickoffTimer_fields (w : World) (dt : ℝ) :
    (w.advanceKickoffTimer dt).humanTeam = w.humanTeam ∧
    (w.advanceKickoffTimer dt).botTeam = w.botTeam ∧
    (w.advanceKickoffTimer dt).scoreHuman = w.scoreHuman ∧
    (w.advanceKickoffTimer dt).scoreBot = w.scoreBot ∧
    (w.advanceKickoffTimer dt).gameMode = w.gameMode := by
  simp only [World.advanceKickoffTimer]
  split_ifs <;> exact ⟨rfl, rfl, rfl, rfl, rfl⟩

/-- C1: in every mode, when World.update detects a goal on a tick, exactly
one score counter increments by 1 (human for a left-team goal, bot for a
right-team goal) and the other is unchanged, every player and the Ball
reset to the mode's fixed kickoff coordinates with velocity (0, 0), the
Ball is frozen with a 1-second timer, the side is returned, and the
post-state is exactly score-bump + resetKickoff of the integrated state —
no collision-resolution pass runs that tick. -/
theorem update_goal_tick (w : World) (dt botAccelerationMultiplier : ℝ) (side : GoalSide)
    (hpause : w.isPaused = false)
    (hh : w.humanTeam.length = teamSize w.gameMode)
    (hb : w.botTeam.length = teamSize w.gameMode)
    (hgoal : checkGoal (((w.advanceKickoffTimer dt).integrateEntities dt
      botAccelerationMultiplier).ball) = some side) :
    (w.update dt botAccelerationMultiplier).2 = some side ∧
    (w.update dt botAccelerationMultiplier).1.scoreHuman =
      w.scoreHuman + (if side = GoalSide.left then 1 else 0) ∧
    (w.update dt botAccelerationMultiplier).1.scoreBot =
      w.scoreBot + (if side = GoalSide.right then 1 else 0) ∧
    ((w.update dt botAccelerationMultiplier).1.humanTeam.map fun p => p.position) =
      humanKickoffList w.gameMode ∧
    ((w.update dt botAccelerationMultiplier).1.humanTeam.map fun p => p.velocity) =
      List.replicate (teamSize w.gameMode) vec2Zero ∧
    ((w.update dt botAccelerationMultiplier).1.botTeam.map fun p => p.position) =
      botKickoffList w.gameMode ∧
    ((w.update dt botAccelerationMultiplier).1.botTeam.map fun p => p.velocity) =
      List.replicate (teamSize w.gameMode) vec2Zero ∧
    (w.update dt botAccelerationMultiplier).1.ball.position =
      ⟨ARENA_WIDTH / 2, ARENA_HEIGHT / 2⟩ ∧
    (w.update dt botAccelerationMultiplier).1.ball.velocity = vec2Zero ∧
    (w.update dt botAccelerationMultiplier).1.ball.isFrozen = true ∧
    (w.update dt botAccelerationMultiplier).1.ball.freezeTime = 1 ∧
    (w.update dt botAccelerationMultiplier).1.kickoffFreezeTime = 1 ∧
    w.update dt botAccelerationMultiplier =
      ((if side = GoalSide.left then
          { (w.advanceKickoffTimer dt).integrateEntities dt botAccelerationMultiplier with
              scoreHuman := ((w.advanceKickoffTimer dt).integrateEntities dt
                botAccelerationMultiplier).scoreHuman + 1 }
        else
          { (w.advanceKickoffTimer dt).integrateEntities dt botAccelerationMultiplier with
              scoreBot := ((w.advanceKickoffTimer dt).integrateEntities dt
                botAccelerationMultiplier).scoreBot + 1 }).resetKickoff,
       some side) := by
  obtain ⟨hteamH, hteamB, hsh, hsb, hgm⟩ := advanceKickoffTimer_fields w dt
  set w2 := (w.advanceKickoffTimer dt).integrateEntities dt botAccelerationMultiplier with hw2
  have hlenH : w2.humanTeam.length = teamSize w2.gameMode := by
    show ((w.advanceKickoffTimer dt).humanTeam.map (fun p => p.update dt 1.0)).length =
      teamSize (w.advanceKickoffTimer dt).gameMode
    rw [List.length_map, hteamH, hgm, hh]
  have hlenB : w2.botTeam.length = teamSize w2.gameMode := by
    show ((w.advanceKickoffTimer dt).botTeam.map
        (fun p => p.update dt botAccelerationMultiplier)).length =
      teamSize (w.advanceKickoffTimer dt).gameMode
    rw [List.length_map, hteamB, hgm, hb]
  have hgm2 : w2.gameMode = w.gameMode := hgm
  have hsh2 : w2.scoreHuman = w.scoreHuman := hsh
  have hsb2 : w2.scoreBot = w.scoreBot := hsb
  have hupd : w.update dt botAccelerationMultiplier =
      ((if side = GoalSide.left then { w2 with scoreHuman := w2.scoreHuman + 1 }
        else { w2 with scoreBot := w2.scoreBot + 1 }).resetKickoff, some side) := by
    simp only [World.update]
    rw [if_neg (by rw [hpause]; exact Bool.false_ne_true), hgoal]
  rw [hupd]
  cases side with
  | left =>
    rw [if_pos rfl]
    obtain ⟨hpos, hvel, hbpos, hbvel, hballp, hballv, hfrozen, hft, hkt, hsc1, hsc2⟩ :=
      resetKickoff_spec { w2 with scoreHuman := w2.scoreHuman + 1 } hlenH hlenB
    dsimp only at hpos hvel hbpos hbvel hsc1 hsc2
    rw [← hgm2]
    refine ⟨rfl, ?_, ?_, hpos, hvel, hbpos, hbvel, hballp, hballv, hfrozen, hft, hkt, rfl⟩
    · rw [hsc1, hsh2]
      simp
    · rw [hsc2, hsb2]
      simp
  | right =>
    rw [if_neg (by exact fun hx => GoalSide.noConfusion hx)]
    obtain ⟨hpos, hvel, hbpos, hbvel, hballp, hballv, hfrozen, hft, hkt, hsc1, hsc2⟩ :=
      resetKickoff_spec { w2 with scoreBot := w2.scoreBot + 1 } hlenH hlenB
    dsimp only at hpos hvel hbpos hbvel hsc1 hsc2
    rw [← hgm2]
    refine ⟨rfl, ?_, ?_, hpos, hvel, hbpos, hbvel, hballp, hballv, hfrozen, hft, hkt, rfl⟩
    · rw [hsc1, hsh2]
      simp
    · rw [hsc2, hsb2]
      simp


/-- The spec's end-to-end 1v1 scenario: ball moved to (−5, 270), inside the
goal-mouth span past the left goal line. -/
def goalWorld : World :=
  { mkWorld GameMode.OneVsOne with
      ball := { (mkWorld GameMode.OneVsOne).ball with position := ⟨-5, 270⟩ } }

/-- Witness for C1 on the end-to-end 1v1 scenario: one update tick scores
for the bot (right) team and resets the layout. -/
theorem update_goal_tick_witness :
    goalWorld.isPaused = false ∧
    goalWorld.humanTeam.length = teamSize goalWorld.gameMode ∧
    goalWorld.botTeam.length = teamSize goalWorld.gameMode ∧
    checkGoal (((goalWorld.advanceKickoffTimer (1 / 60)).integrateEntities (1 / 60) 1).ball) =
      some GoalSide.right ∧
    ((goalWorld.update (1 / 60) 1).2 = some GoalSide.right ∧
     (goalWorld.update (1 / 60) 1).1.scoreHuman =
       goalWorld.scoreHuman + (if GoalSide.right = GoalSide.left then 1 else 0) ∧
     (goalWorld.update (1 / 60) 1).1.scoreBot =
       goalWorld.scoreBot + (if GoalSide.right = GoalSide.right then 1 else 0) ∧
     ((goalWorld.update (1 / 60) 1).1.humanTeam.map fun p => p.position) =
       humanKickoffList goalWorld.gameMode ∧
     ((goalWorld.update (1 / 60) 1).1.humanTeam.map fun p => p.velocity) =
       List.replicate (teamSize goalWorld.gameMode) vec2Zero ∧
     ((goalWorld.update (1 / 60) 1).1.botTeam.map fun p => p.position) =
       botKickoffList goalWorld.gameMode ∧
     ((goalWorld.update (1 / 60) 1).1.botTeam.map fun p => p.velocity) =
       List.replicate (teamSize goalWorld.gameMode) vec2Zero ∧
     (goalWorld.update (1 / 60) 1).1.ball.position = ⟨ARENA_WIDTH / 2, ARENA_HEIGHT / 2⟩ ∧
     (goalWorld.update (1 / 60) 1).1.ball.velocity = vec2Zero ∧
     (goalWorld.update (1 / 60) 1).1.ball.isFrozen = true ∧
     (goalWorld.update (1 / 60) 1).1.ball.freezeTime = 1 ∧
     (goalWorld.update (1 / 60) 1).1.kickoffFreezeTime = 1 ∧
     goalWorld.update (1 / 60) 1 =
       ((if GoalSide.right = GoalSide.left then
           { (goalWorld.advanceKickoffTimer (1 / 60)).integrateEntities (1 / 60) 1 with
               scoreHuman := ((goalWorld.advanceKickoffTimer (1 / 60)).integrateEntities
                 (1 / 60) 1).scoreHuman + 1 }
         else
           { (goalWorld.advanceKickoffTimer (1 / 60)).integrateEntities (1 / 60) 1 with
               scoreBot := ((goalWorld.advanceKickoffTimer (1 / 60)).integrateEntities
                 (1 / 60) 1).scoreBot + 1 }).resetKickoff,
        some GoalSide.right)) := by
  have hgoal : checkGoal (((goalWorld.advanceKickoffTimer (1 / 60)).integrateEntities
      (1 / 60) 1).ball) = some GoalSide.right := by
    simp only [goalWorld, mkWorld, mkPlayer, mkBall, World.advanceKickoffTimer,
      World.integrateEntities, Ball.update, Entity.update, checkGoal,
      goalTop, goalBottom, vec2Zero, BALL_RADIUS, ARENA_WIDTH, ARENA_HEIGHT, GOAL_HEIGHT,
      BALL_DAMPING, BALL_MAX_SPEED, vec2_mk_x, vec2_mk_y]
    norm_num
  exact ⟨rfl, rfl, rfl, hgoal,
    update_goal_tick goalWorld (1 / 60) 1 GoalSide.right rfl rfl rfl hgoal⟩

/-! ### Claim C9 — the Bot steering vector -/

/-- C9 (amended): getDesiredDirection returns a unit vector or the zero
vector — the zero vector arising when the separation/goal steering blend
cancels the target direction below vec2Normalize's 1e-4 threshold. -/
theorem getDesiredDirection_unit_or_zero (bot : Player) (ball : Ball) (humanPlayer : Player)
    (humanTeam botTeam : List Player) (isTeammate : Bool) (gameMode : Option GameMode)
    (rand : ℝ) :
    vec2Length (getDesiredDirection bot ball humanPlayer humanTeam botTeam isTeammate
      gameMode rand) = 1 ∨
    getDesiredDirection bot ball humanPlayer humanTeam botTeam isTeammate gameMode rand =
      ⟨0, 0⟩ := by
  obtain ⟨d, hd⟩ : ∃ d, getDesiredDirection bot ball humanPlayer humanTeam botTeam isTeammate
      gameMode rand = vec2Normalize d := ⟨_, rfl⟩
  rw [hd]
  rcases vec2Normalize_unit_or_zero d with h | h
  · exact Or.inl h
  · exact Or.inr h


/-- C9 counterexample configuration: a 3v3 opponent center defending at
(561, 270), one roster-mate 50px to its left, everyone else far away, the
ball at (100, 270) on the human side. The defensive target lands at
(560, 270), so the 0.5/0.5 separation blend cancels the steering direction
exactly and the returned vector is (0, 0), not a unit vector. -/
def cexBot : Player := mkPlayer ⟨561, 270⟩ false
def cexB1 : Player := mkPlayer ⟨511, 270⟩ false
def cexB2 : Player := mkPlayer ⟨800, 270⟩ false
def cexHuman : Player := mkPlayer ⟨200, 270⟩ true
def cexH1 : Player := mkPlayer ⟨150, 270⟩ true
def cexH2 : Player := mkPlayer ⟨120, 270⟩ true
def cexBall : Ball := mkBall ⟨100, 270⟩

set_option maxHeartbeats 3000000 in
/-- C9 counterexample: at the configuration above, getDesiredDirection
returns the zero vector, whose length is not 1. -/
theorem getDesiredDirection_cex :
    getDesiredDirection cexBot cexBall cexHuman [cexHuman, cexH1, cexH2]
      [cexBot, cexB1, cexB2] false (some GameMode.ThreeVsThree) 0 = ⟨0, 0⟩ ∧
    vec2Length (getDesiredDirection cexBot cexBall cexHuman [cexHuman, cexH1, cexH2]
      [cexBot, cexB1, cexB2] false (some GameMode.ThreeVsThree) 0) ≠ 1 := by
  have s461 : Real.sqrt 212521 = 461 := sqrtVal (by norm_num) (by norm_num)
  have s361 : Real.sqrt 130321 = 361 := sqrtVal (by norm_num) (by norm_num)
  have s411 : Real.sqrt 168921 = 411 := sqrtVal (by norm_num) (by norm_num)
  have s441 : Real.sqrt 194481 = 441 := sqrtVal (by norm_num) (by norm_num)
  have s50 : Real.sqrt 2500 = 50 := sqrtVal (by norm_num) (by norm_num)
  have s239 : Real.sqrt 57121 = 239 := sqrtVal (by norm_num) (by norm_num)
  have s075 : Real.sqrt 0.5625 = 0.75 := sqrtVal (by norm_num) (by norm_num)
  have s9 : Real.sqrt 9 = 3 := sqrtVal (by norm_num) (by norm_num)
  have s16 : Real.sqrt 16 = 4 := sqrtVal (by norm_num) (by norm_num)
  have g32 : ¬(GameMode.ThreeVsThree = GameMode.TwoVsTwo) := by decide
  have hmain : getDesiredDirection cexBot cexBall cexHuman [cexHuman, cexH1, cexH2]
      [cexBot, cexB1, cexB2] false (some GameMode.ThreeVsThree) 0 = ⟨0, 0⟩ := by
    simp only [getDesiredDirection, calculateSeparation, getOpponentCoordinatedPosition,
      jsIndexOf, cexBot, cexBall, cexHuman, cexH1, cexH2, cexB1, cexB2, mkPlayer, mkBall,
      vec2Distance, vec2Length, vec2Sub, vec2Add, vec2Scale, vec2Normalize, vec2Zero,
      vec2Dot, KICK_RADIUS, ARENA_WIDTH, ARENA_HEIGHT, List.foldl_cons, List.foldl_nil,
      vec2_mk_x, vec2_mk_y]
    norm_num [s461, s361, s411, s441, s50, s239, s075, s9, s16, g32,
      Real.sqrt_zero, Real.sqrt_one,
      max_def, min_def, Player.mk.injEq, Entity.mk.injEq, Vec2.mk.injEq, List.mem_cons,
      List.not_mem_nil, Vec2.ext_iff]
  refine ⟨hmain, ?_⟩
  rw [hmain]
  norm_num [vec2Length, Real.sqrt_zero]

end

end HaxballSolo
